import Mathlib

/-! # AudioEngine: waveform overview and beat detection

A shallow embedding of `audio_player_app/juce_module/Source/AudioEngine.cpp`
(`performFullWaveformAnalysis`, `performBeatDetection`, `loadFile`) and the
properties of its overview segments, onset list and tempo estimate.

Modelling conventions
* Numbers are rationals (`ℚ`).  Where the source rounds to 32-bit `float` in a way
  that decides a stored value, the rounding is modelled by `toFloat` (round to
  nearest, ties to even, 24-bit significand); `toDouble` is the same for `double`.
  This covers the band energies and colour bytes (`bandStep`, `bandEnergies`,
  `bandColor`) and the local `const float duration` (`analysisDuration`).  The
  envelope, the segment energies, the running energy sum, the timestamps and the
  tempo are computed exactly; overflow, subnormal numbers and infinities are not
  modelled.
* The samples of an `AudioBuffer` are numbers.  The min/max scan on samples that
  may be NaN is modelled separately (`Sample`, `scanMinMaxSamples`).
* Sample counts and indices are natural numbers.  The source holds them in
  `int` / `long long`; a JUCE buffer has an `int` sample count, so every index
  expression of the source (`i * samplesPerPoint` with `i < 1024`) stays far
  below `2^63` and no wrap-around can occur.
* The JUCE Hann windowing followed by `performFrequencyOnlyForwardTransform` is
  a library routine outside the repository; it is the parameter `fftMag`
  (window of `FFT_SIZE` samples in, magnitude bins out).
-/

namespace AudioEngine

/-! ## Constants (AudioEngine.h) -/

def DEFAULT_OVERVIEW_RESOLUTION : Nat := 1024
def FFT_ORDER : Nat := 10
def FFT_SIZE : Nat := 2 ^ FFT_ORDER
def LOW_FREQ_CUTOFF : ℚ := 200
def MID_FREQ_CUTOFF : ℚ := 2000

/-! ## Floating-point rounding -/

/-- The number of halvings that bring `n` below 2, at most `fuel` of them. -/
def halvings : Nat → Nat → Nat
  | 0, _ => 0
  | fuel + 1, n => if n < 2 then 0 else halvings fuel (n / 2) + 1

/-- The integer logarithm `floor(log2 n)` of a natural number (0 for `n = 0`). -/
def floorLog2 (n : Nat) : Nat := halvings n n

/-- Whether the ratio `n / d` is at least `2 ^ e`, in integer arithmetic. -/
def ratioAtLeast (n d : Nat) (e : Int) : Bool :=
  if 0 ≤ e then decide (d * 2 ^ e.toNat ≤ n) else decide (d ≤ n * 2 ^ (-e).toNat)

/-- The binary exponent `floor(log2 (n / d))` of the ratio of two positive naturals:
the difference of their integer logarithms, or one less. -/
def ratioExponent (n d : Nat) : Int :=
  if ratioAtLeast n d ((floorLog2 n : Int) - (floorLog2 d : Int)) then
    (floorLog2 n : Int) - (floorLog2 d : Int)
  else (floorLog2 n : Int) - (floorLog2 d : Int) - 1

/-- The integer nearest to `n / d` (for `d > 0`), ties to the even one. -/
def roundRatio (n : Int) (d : Nat) : Int :=
  if 2 * (n % (d : Int)) < (d : Int) then n / (d : Int)
  else if (d : Int) < 2 * (n % (d : Int)) then n / (d : Int) + 1
  else if (n / (d : Int)) % 2 = 0 then n / (d : Int)
  else n / (d : Int) + 1

/-- The multiple of `2 ^ e` nearest to `n / d`, ties to the even multiple. -/
def roundToMultiple (n : Int) (d : Nat) (e : Int) : ℚ :=
  if 0 ≤ e then ((roundRatio n (d * 2 ^ e.toNat) * ((2 ^ e.toNat : Nat) : Int) : Int) : ℚ)
  else mkRat (roundRatio (n * ((2 ^ (-e).toNat : Nat) : Int)) d) (2 ^ (-e).toNat)

/-- Rounding to the nearest binary floating-point value with a significand of
`bits` bits (round to nearest, ties to even; the exponent range is not bounded):
the nearest multiple of `2 ^ (floor(log2 |q|) - (bits - 1))`. -/
def roundToBits (bits : Nat) (q : ℚ) : ℚ :=
  if q.num = 0 then 0
  else roundToMultiple q.num q.den (ratioExponent q.num.natAbs q.den - ((bits : Int) - 1))

/-- Rounding to 32-bit `float`. -/
def toFloat (q : ℚ) : ℚ := roundToBits 24 q

/-- Rounding to 64-bit `double`. -/
def toDouble (q : ℚ) : ℚ := roundToBits 53 q

/-- The C struct `WaveformPoint`: envelope and colour bytes of one overview segment. -/
structure WaveformPoint where
  minValue : ℚ
  maxValue : ℚ
  r : Nat
  g : Nat
  b : Nat
deriving DecidableEq

/-- The part of `juce::AudioBuffer<float>` the analysis reads: the channel and
sample counts and the read pointer of channel 0. -/
structure AudioBuffer where
  numChannels : Nat
  numSamples : Nat
  channel0 : Nat → ℚ

/-- The fields of `AudioEngine` touched by loading and analysis.
`fftInvocations` is a ghost counter of calls to the forward transform and
`hasPlaybackSource` records whether `currentAudioFileSource` is set. -/
structure Engine where
  audioBuffer : AudioBuffer
  currentSampleRate : ℚ
  currentTotalSamples : Int
  currentNumChannels : Nat
  currentDurationSeconds : ℚ
  overviewWaveformPoints : List WaveformPoint
  detectedBPM : ℚ
  detectedBeatTimestamps : List ℚ
  hasPlaybackSource : Bool
  fftInvocations : Nat

/-! ## performFullWaveformAnalysis -/

/-- The statement `samplesPerPoint = total / RESOLUTION; if (samplesPerPoint == 0) samplesPerPoint = 1`. -/
def samplesPerPoint (totalSamplesInFile : Nat) : Nat :=
  if totalSamplesInFile / DEFAULT_OVERVIEW_RESOLUTION = 0 then 1
  else totalSamplesInFile / DEFAULT_OVERVIEW_RESOLUTION

/-- The value of `startSample` in iteration `i`. -/
def startSample (total i : Nat) : Nat := i * samplesPerPoint total

/-- The value of `endSample` in iteration `i`, after the clamp to the sample count. -/
def endSample (total i : Nat) : Nat :=
  if startSample total i + samplesPerPoint total > total then total
  else startSample total i + samplesPerPoint total

/-- The inner scan `for (s = startSample + 1; s < endSample; ++s)`: `k` iterations
are left, `s` is the running index and the pair holds `(minValue, maxValue)`. -/
def scanMinMax (channelData : Nat → ℚ) : Nat → Nat → ℚ × ℚ → ℚ × ℚ
  | 0, _, acc => acc
  | k + 1, s, acc =>
    scanMinMax channelData k (s + 1)
      (if channelData s < acc.1 then channelData s else acc.1,
       if channelData s > acc.2 then channelData s else acc.2)

/-- The envelope `(minValue, maxValue)` of the sample range `[start, stop)`. -/
def envelope (channelData : Nat → ℚ) (start stop : Nat) : ℚ × ℚ :=
  scanMinMax channelData (stop - (start + 1)) (start + 1)
    (channelData start, channelData start)

/-- The value of `fftStartSample`: `max(0, centre - FFT_SIZE / 2)`. -/
def fftStartSample (start stop : Nat) : Nat :=
  (start + (stop - start) / 2) - FFT_SIZE / 2

/-- The value of `samplesToCopyForFFT` (an `int`, possibly negative in principle). -/
def samplesToCopyForFFT (total fftStart : Nat) : Int :=
  if (total : Int) - fftStart < FFT_SIZE then (total : Int) - fftStart else FFT_SIZE

/-- The contents of `fftWindowBuffer` before windowing: `FFT_SIZE` samples from
`fftStart`, zero beyond the end of the buffer. -/
def fftWindow (channelData : Nat → ℚ) (total fftStart : Nat) : List ℚ :=
  (List.range FFT_SIZE).map fun k =>
    if fftStart + k < total then channelData (fftStart + k) else 0

/-- The running values `(lowEnergy, midEnergy, highEnergy, totalEnergy)`. -/
structure BandEnergy where
  low : ℚ
  mid : ℚ
  high : ℚ
  total : ℚ
deriving DecidableEq

/-- One iteration of the bin loop `for (k = 0; k < FFT_SIZE / 2 + 1; ++k)`, in
`float` arithmetic: `freq = float(k) * (float(sampleRate) / FFT_SIZE)` and every
`+=` are rounded to `float`; `magnitude` is the `float` held in `fftWindowBuffer[k]`. -/
def bandStep (sampleRate : ℚ) (mags : List ℚ) (acc : BandEnergy) (k : Nat) : BandEnergy :=
  let freq : ℚ := toFloat ((k : ℚ) * toFloat (toFloat sampleRate / FFT_SIZE))
  let magnitude : ℚ := mags.getD k 0
  if freq ≤ LOW_FREQ_CUTOFF then
    { acc with low := toFloat (acc.low + magnitude), total := toFloat (acc.total + magnitude) }
  else if freq ≤ MID_FREQ_CUTOFF then
    { acc with mid := toFloat (acc.mid + magnitude), total := toFloat (acc.total + magnitude) }
  else
    { acc with high := toFloat (acc.high + magnitude), total := toFloat (acc.total + magnitude) }

/-- The whole bin loop, started from `0, 0, 0, 0.0001f`. -/
def bandEnergies (sampleRate : ℚ) (mags : List ℚ) : BandEnergy :=
  (List.range (FFT_SIZE / 2 + 1)).foldl (bandStep sampleRate mags)
    { low := 0, mid := 0, high := 0, total := toFloat (1 / 10000) }

/-- The conversion `static_cast<unsigned char>(std::min(255.0f, x))`: the value is
capped at 255 and its fractional part is dropped.  (For `x ≤ -1` the C++ cast is
undefined; the model gives 0 there.) -/
def toColorByte (x : ℚ) : Nat := (Int.floor (min 255 x)).toNat

/-- The `float` value `(bandEnergy / totalEnergy) * 255.0f * 3.0f`, each operation
rounded to `float`. -/
def colorValue (bandEnergy totalEnergy : ℚ) : ℚ :=
  toFloat (toFloat (toFloat (bandEnergy / totalEnergy) * 255) * 3)

/-- The colour of a segment from its band energies; `(128, 128, 128)` is the
initial value of the point, kept when `totalEnergy > 0` fails. -/
def bandColor (e : BandEnergy) : Nat × Nat × Nat :=
  if e.total > 0 then
    (toColorByte (colorValue e.low e.total),
     toColorByte (colorValue e.mid e.total),
     toColorByte (colorValue e.high e.total))
  else (128, 128, 128)

/-- Whether iteration `i` runs the transform (`samplesToCopyForFFT > 0`). -/
def fftInvoked (total i : Nat) : Bool :=
  decide (samplesToCopyForFFT total
    (fftStartSample (startSample total i) (endSample total i)) > 0)

/-- The colour computed in iteration `i`. -/
def segmentColor (fftMag : List ℚ → List ℚ) (buf : AudioBuffer) (sampleRate : ℚ)
    (i : Nat) : Nat × Nat × Nat :=
  let total := buf.numSamples
  let fftStart := fftStartSample (startSample total i) (endSample total i)
  if fftInvoked total i then
    bandColor (bandEnergies sampleRate (fftMag (fftWindow buf.channel0 total fftStart)))
  else (128, 128, 128)

/-- The `WaveformPoint` pushed by iteration `i` of the segment loop. -/
def analysePoint (fftMag : List ℚ → List ℚ) (buf : AudioBuffer) (sampleRate : ℚ)
    (i : Nat) : WaveformPoint :=
  let total := buf.numSamples
  let env := envelope buf.channel0 (startSample total i) (endSample total i)
  let col := segmentColor fftMag buf sampleRate i
  { minValue := env.1, maxValue := env.2, r := col.1, g := col.2.1, b := col.2.2 }

/-- The segment loop `for (i = 0; i < RESOLUTION; ++i)` with its `break`:
`remaining` iterations are left and `i` is the loop counter.  The result is the
list of pushed points, each with the flag whether the transform ran for it. -/
def segmentLoop (fftMag : List ℚ → List ℚ) (buf : AudioBuffer) (sampleRate : ℚ) :
    Nat → Nat → List (WaveformPoint × Bool)
  | 0, _ => []
  | remaining + 1, i =>
    if startSample buf.numSamples i ≥ buf.numSamples then []
    else (analysePoint fftMag buf sampleRate i, fftInvoked buf.numSamples i) ::
      segmentLoop fftMag buf sampleRate remaining (i + 1)

/-- The method `AudioEngine::performFullWaveformAnalysis`. -/
def performFullWaveformAnalysis (fftMag : List ℚ → List ℚ) (e : Engine) : Engine :=
  let cleared := { e with overviewWaveformPoints := [] }
  if e.audioBuffer.numSamples = 0 ∨ e.currentSampleRate = 0 then cleared
  else
    let segs := segmentLoop fftMag e.audioBuffer e.currentSampleRate
      DEFAULT_OVERVIEW_RESOLUTION 0
    { cleared with
      overviewWaveformPoints := segs.map Prod.fst
      fftInvocations := e.fftInvocations + (segs.filter Prod.snd).length }

/-! ## performBeatDetection -/

/-- The local constant `historySize`. -/
def historySize : Nat := 10

/-- The energy proxy `point.maxValue - point.minValue` of every overview point. -/
def energiesOf (points : List WaveformPoint) : List ℚ :=
  points.map fun point => point.maxValue - point.minValue

/-- The initial `energySum`: the first `min(historySize, size)` energies added up. -/
def initialEnergySum (energies : List ℚ) : ℚ :=
  (List.range (min historySize energies.length)).foldl
    (fun energySum i => energySum + energies.getD i 0) 0

/-- The value of `localAverageEnergy` in iteration `i`, from the running `energySum`. -/
def localAverageEnergy (energySum : ℚ) (i : Nat) : ℚ :=
  if i > 0 then
    if i < historySize then energySum / ((i : ℚ) + 1) else energySum / (historySize : ℚ)
  else 0

/-- The constant `0.05f`: the `float` nearest to `0.05`. -/
def ENERGY_FLOOR : ℚ := 13421773 / 268435456

/-- The timestamp `(i / RESOLUTION) * duration` of segment `i`. -/
def timeStamp (duration : ℚ) (i : Nat) : ℚ :=
  ((i : ℚ) / (DEFAULT_OVERVIEW_RESOLUTION : ℚ)) * duration

/-- The onset test and debounce of iteration `i`: the onset list after it. -/
def acceptOnset (energies : List ℚ) (duration : ℚ) (i : Nat) (energySum : ℚ)
    (onsets : List ℚ) : List ℚ :=
  let currentEnergy := energies.getD i 0
  if currentEnergy > localAverageEnergy energySum i * (3 / 2) ∧ currentEnergy > ENERGY_FLOOR then
    if onsets = [] ∨ timeStamp duration i - onsets.getLastD 0 > 1 / 5 then
      onsets ++ [timeStamp duration i]
    else onsets
  else onsets

/-- The update of `energySum` at the end of iteration `i`. -/
def slideEnergySum (energies : List ℚ) (i : Nat) (energySum : ℚ) : ℚ :=
  let dropped :=
    if i ≥ historySize ∧ i - historySize < energies.length then
      energySum - energies.getD (i - historySize) 0
    else energySum
  if i + 1 < energies.length then dropped + energies.getD (i + 1) 0 else dropped

/-- One iteration of the onset loop on the state `(energySum, onsets)`. -/
def onsetStep (energies : List ℚ) (duration : ℚ) (st : ℚ × List ℚ) (i : Nat) :
    ℚ × List ℚ :=
  (slideEnergySum energies i st.1, acceptOnset energies duration i st.1 st.2)

/-- The state `(energySum, onsets)` at the start of iteration `i` of the onset loop. -/
def onsetLoopState (energies : List ℚ) (duration : ℚ) (i : Nat) : ℚ × List ℚ :=
  (List.range i).foldl (onsetStep energies duration) (initialEnergySum energies, [])

/-- The local vector `onsets` when the loop `for (i = 0; i < energies.size(); ++i)` ends. -/
def detectOnsets (energies : List ℚ) (duration : ℚ) : List ℚ :=
  (onsetLoopState energies duration energies.length).2

/-- The inter-onset intervals `onsets[i+1] - onsets[i]`. -/
def interOnsetIntervals : List ℚ → List ℚ
  | a :: b :: rest => (b - a) :: interOnsetIntervals (b :: rest)
  | _ => []

/-- The loop `while (bpm < 70.0 && bpm > 0.1) bpm *= 2.0`, at most `fuel` rounds. -/
def doubleWhileSlow : Nat → ℚ → ℚ
  | 0, bpm => bpm
  | fuel + 1, bpm => if bpm < 70 ∧ bpm > 1 / 10 then doubleWhileSlow fuel (bpm * 2) else bpm

/-- The loop `while (bpm > 180.0) bpm /= 2.0`, at most `fuel` rounds. -/
def halveWhileFast : Nat → ℚ → ℚ
  | 0, bpm => bpm
  | fuel + 1, bpm => if bpm > 180 then halveWhileFast fuel (bpm / 2) else bpm

/-- Ten doublings are enough for the first loop: it only runs on values above `0.1`. -/
def doubleFuel : Nat := 10

/-- A number of rounds that is enough for the halving loop started at `bpm`. -/
def halveFuel (bpm : ℚ) : Nat := Nat.ceil bpm

/-- The octave folding of a raw tempo: both `while` loops in sequence. -/
def foldOctave (bpm : ℚ) : ℚ :=
  halveWhileFast (halveFuel (doubleWhileSlow doubleFuel bpm)) (doubleWhileSlow doubleFuel bpm)

/-- The element `iois[iois.size() / 2]` of the sorted intervals. -/
def medianIOI (iois : List ℚ) : ℚ :=
  (iois.insertionSort (· ≤ ·)).getD (iois.length / 2) 0

/-- The tempo computed from at least two onsets (the code after the `onsets.size() < 2` exit). -/
def bpmFromOnsets (onsets : List ℚ) : ℚ :=
  let iois := interOnsetIntervals onsets
  if iois = [] then 0
  else if medianIOI iois > 1 / 100 then foldOctave (60 / medianIOI iois)
  else 0

/-- The local `const float duration = static_cast<float>(numSamples) / currentSampleRate`:
the sample count is converted to `float`, the division is done in `double` and the
quotient is stored as `float`. -/
def analysisDuration (e : Engine) : ℚ :=
  toFloat (toDouble (toFloat (e.audioBuffer.numSamples : ℚ) / e.currentSampleRate))

/-- The method `AudioEngine::performBeatDetection`. -/
def performBeatDetection (e : Engine) : Engine :=
  let cleared := { e with detectedBPM := 0, detectedBeatTimestamps := [] }
  if e.audioBuffer.numSamples = 0 ∨ e.currentSampleRate = 0 then cleared
  else if e.overviewWaveformPoints = [] then cleared
  else if (energiesOf e.overviewWaveformPoints).length < 2 then cleared
  else
    let onsets := detectOnsets (energiesOf e.overviewWaveformPoints) (analysisDuration e)
    if onsets.length < 2 then { cleared with detectedBPM := 0, detectedBeatTimestamps := onsets }
    else { cleared with detectedBPM := bpmFromOnsets onsets, detectedBeatTimestamps := onsets }

/-! ## Specification vocabulary -/

/-- `m` is the least value of `x` on the index range `[lo, hi)`: it is attained
there and is a lower bound there. -/
def IsMinOn (x : Nat → ℚ) (lo hi : Nat) (m : ℚ) : Prop :=
  (∃ s, lo ≤ s ∧ s < hi ∧ x s = m) ∧ ∀ s, lo ≤ s → s < hi → m ≤ x s

/-- `m` is the greatest value of `x` on the index range `[lo, hi)`. -/
def IsMaxOn (x : Nat → ℚ) (lo hi : Nat) (m : ℚ) : Prop :=
  (∃ s, lo ≤ s ∧ s < hi ∧ x s = m) ∧ ∀ s, lo ≤ s → s < hi → x s ≤ m

/-- The number of segments the loop pushes: `min(RESOLUTION, ceil(N / W))`. -/
def segmentCount (total : Nat) : Nat :=
  min DEFAULT_OVERVIEW_RESOLUTION
    ((total + samplesPerPoint total - 1) / samplesPerPoint total)


/-! ## loadFile -/

/-- What a `juce::AudioFormatReader` reports about an opened file. -/
structure ReaderInfo where
  sampleRate : ℚ
  lengthInSamples : Int
  numChannels : Nat

/-- The outcome of the file-system and decoder calls made by `loadFile`
(`existsAsFile`, the two `createReaderFor` calls and `reader->read`). -/
inductive FileAccess where
  /-- The call `existsAsFile()` is false. -/
  | missing
  /-- The first `createReaderFor` returns null. -/
  | noPlaybackReader
  /-- The playback reader opens, the second `createReaderFor` returns null. -/
  | noAnalysisReader (playback : ReaderInfo)
  /-- Both readers open; `channel0` is what `reader->read` stores in channel 0. -/
  | opened (playback analysis : ReaderInfo) (channel0 : Nat → ℚ)

/-- The metadata block of `loadFile`, run once the playback reader exists. -/
def storeMetadata (playback : ReaderInfo) (e : Engine) : Engine :=
  { e with
    currentSampleRate := playback.sampleRate
    currentTotalSamples := playback.lengthInSamples
    currentNumChannels := playback.numChannels
    currentDurationSeconds :=
      if playback.sampleRate > 0 then (playback.lengthInSamples : ℚ) / playback.sampleRate
      else 0 }

/-- The conversion `static_cast<int>(reader->lengthInSamples)` of a positive
length, as the sample count handed to `audioBuffer.setSize`. -/
def bufferLength (lengthInSamples : Int) : Nat :=
  (((lengthInSamples + 2 ^ 31) % 2 ^ 32) - 2 ^ 31).toNat

/-- The method `AudioEngine::loadFile`: the engine afterwards and the returned flag. -/
def loadFile (fftMag : List ℚ → List ℚ) (file : FileAccess) (e : Engine) : Engine × Bool :=
  let stopped := { e with hasPlaybackSource := false }
  match file with
  | .missing => (stopped, false)
  | .noPlaybackReader => (stopped, false)
  | .noAnalysisReader playback =>
    ({ storeMetadata playback stopped with hasPlaybackSource := false }, false)
  | .opened playback analysis channel0 =>
    let prepared := { storeMetadata playback stopped with hasPlaybackSource := true }
    if analysis.lengthInSamples > 0 ∧ analysis.numChannels > 0 then
      let filled := { prepared with
        audioBuffer :=
          { numChannels := analysis.numChannels
            numSamples := bufferLength analysis.lengthInSamples
            channel0 := channel0 } }
      (performBeatDetection (performFullWaveformAnalysis fftMag filled), true)
    else
      ({ prepared with
          overviewWaveformPoints := []
          detectedBeatTimestamps := []
          detectedBPM := 0 }, true)

/-- The two analysis passes in the order `loadFile` runs them. -/
def analyze (fftMag : List ℚ → List ℚ) (e : Engine) : Engine :=
  performBeatDetection (performFullWaveformAnalysis fftMag e)

/-! ## Values observed inside the onset loop -/

/-- The running `energySum` at the start of iteration `i`. -/
def energySumAt (energies : List ℚ) (duration : ℚ) (i : Nat) : ℚ :=
  (onsetLoopState energies duration i).1

/-- The `localAverageEnergy` that iteration `i` compares `energies[i]` against. -/
def localAverageAt (energies : List ℚ) (duration : ℚ) (i : Nat) : ℚ :=
  localAverageEnergy (energySumAt energies duration i) i

/-- The local vector `onsets` of `performBeatDetection` when the method returns:
empty when an early exit is taken before the onset loop, the loop result otherwise. -/
def acceptedOnsets (e : Engine) : List ℚ :=
  if e.audioBuffer.numSamples = 0 ∨ e.currentSampleRate = 0 then []
  else if e.overviewWaveformPoints = [] then []
  else if (energiesOf e.overviewWaveformPoints).length < 2 then []
  else detectOnsets (energiesOf e.overviewWaveformPoints) (analysisDuration e)

/-- A stretch of the onset loop: the iterations `first, ..., first + count - 1`
run from the state `st`. -/
def onsetLoopFrom (energies : List ℚ) (duration : ℚ) (first count : Nat) (st : ℚ × List ℚ) :
    ℚ × List ℚ :=
  (List.range' first count).foldl (onsetStep energies duration) st

/-! ## Concrete engines and transforms -/

/-- A transform for concrete evaluations: every bin carries the sum of the absolute
values of the window.  (This is the magnitude spectrum of an unweighted window
holding a single impulse, and an upper bound of every bin in general.) -/
def flatSpectrum (window : List ℚ) : List ℚ :=
  List.replicate (FFT_SIZE / 2 + 1) (window.map fun v => |v|).sum

/-- The engine right after construction: nothing loaded, nothing analysed. -/
def freshEngine : Engine :=
  { audioBuffer := { numChannels := 0, numSamples := 0, channel0 := fun _ => 0 }
    currentSampleRate := 0
    currentTotalSamples := 0
    currentNumChannels := 0
    currentDurationSeconds := 0
    overviewWaveformPoints := []
    detectedBPM := 0
    detectedBeatTimestamps := []
    hasPlaybackSource := false
    fftInvocations := 0 }

/-- An engine holding a mono buffer of `numSamples` samples at `sampleRate`. -/
def engineWithBuffer (numSamples : Nat) (sampleRate : ℚ) (channel0 : Nat → ℚ) : Engine :=
  { freshEngine with
    audioBuffer := { numChannels := 1, numSamples := numSamples, channel0 := channel0 }
    currentSampleRate := sampleRate
    currentTotalSamples := numSamples
    currentNumChannels := 1
    currentDurationSeconds := (numSamples : ℚ) / sampleRate }

/-- Four samples `0, 1/2, -1/4, 1`. -/
def fourSamples (s : Nat) : ℚ :=
  match s with
  | 1 => 1 / 2
  | 2 => -1 / 4
  | 3 => 1
  | _ => 0

/-! ## The onset loop over an energy accessor

The same loop body as `acceptOnset` / `slideEnergySum` / `onsetStep`, reading
`energies[j]` through `energyAt j` and `energies.size()` through `size`; it is
used to evaluate the loop on long energy sequences given by a formula. -/

/-- The body of `acceptOnset` with `energies[i]` read as `energyAt i`. -/
def acceptOnsetOn (energyAt : Nat → ℚ) (duration : ℚ) (i : Nat) (energySum : ℚ)
    (onsets : List ℚ) : List ℚ :=
  let currentEnergy := energyAt i
  if currentEnergy > localAverageEnergy energySum i * (3 / 2) ∧ currentEnergy > ENERGY_FLOOR then
    if onsets = [] ∨ timeStamp duration i - onsets.getLastD 0 > 1 / 5 then
      onsets ++ [timeStamp duration i]
    else onsets
  else onsets

/-- The body of `slideEnergySum` with `energies[j]` read as `energyAt j`. -/
def slideEnergySumOn (energyAt : Nat → ℚ) (size : Nat) (i : Nat) (energySum : ℚ) : ℚ :=
  let dropped :=
    if i ≥ historySize ∧ i - historySize < size then energySum - energyAt (i - historySize)
    else energySum
  if i + 1 < size then dropped + energyAt (i + 1) else dropped

/-- The body of `onsetStep` over an accessor. -/
def onsetStepOn (energyAt : Nat → ℚ) (size : Nat) (duration : ℚ) (st : ℚ × List ℚ)
    (i : Nat) : ℚ × List ℚ :=
  (slideEnergySumOn energyAt size i st.1, acceptOnsetOn energyAt duration i st.1 st.2)

/-- The stretch `onsetLoopFrom` over an accessor. -/
def onsetLoopFromOn (energyAt : Nat → ℚ) (size : Nat) (duration : ℚ) (first count : Nat)
    (st : ℚ × List ℚ) : ℚ × List ℚ :=
  (List.range' first count).foldl (onsetStepOn energyAt size duration) st

/-- A stretch of the bin loop: the bins `first, ..., first + count - 1` accumulated
onto `acc`. -/
def bandLoopFrom (sampleRate : ℚ) (mags : List ℚ) (first count : Nat) (acc : BandEnergy) :
    BandEnergy :=
  (List.range' first count).foldl (bandStep sampleRate mags) acc

/-- The local average as the specification words it: the arithmetic mean of the last
`min(i + 1, H)` energies `energies[max(0, i - H + 1)], ..., energies[i]`. -/
def meanOfRecent (energies : List ℚ) (i : Nat) : ℚ :=
  ((List.range (min (i + 1) historySize)).map fun j => energies.getD (i - j) 0).sum /
    ((min (i + 1) historySize : Nat) : ℚ)

/-- A dyadic rational: an integer divided by a power of two.  Every `float` and
`double` value is one. -/
def IsDyadic (x : ℚ) : Prop := ∃ (m : Int) (n : Nat), x * 2 ^ n = (m : ℚ)

/-! ## The bin loop over a magnitude accessor

The loop body of `bandStep` reading `fftWindowBuffer[k]` through `magnitudeAt k`; it
is used to evaluate the loop on spectra given by a formula. -/

/-- The body of `bandStep` with the magnitude of bin `k` read as `magnitudeAt k`. -/
def bandStepOn (sampleRate : ℚ) (magnitudeAt : Nat → ℚ) (acc : BandEnergy) (k : Nat) :
    BandEnergy :=
  let freq : ℚ := toFloat ((k : ℚ) * toFloat (toFloat sampleRate / FFT_SIZE))
  let magnitude : ℚ := magnitudeAt k
  if freq ≤ LOW_FREQ_CUTOFF then
    { acc with low := toFloat (acc.low + magnitude), total := toFloat (acc.total + magnitude) }
  else if freq ≤ MID_FREQ_CUTOFF then
    { acc with mid := toFloat (acc.mid + magnitude), total := toFloat (acc.total + magnitude) }
  else
    { acc with high := toFloat (acc.high + magnitude), total := toFloat (acc.total + magnitude) }

/-- The stretch `bandLoopFrom` over a magnitude accessor. -/
def bandLoopFromOn (sampleRate : ℚ) (magnitudeAt : Nat → ℚ) (first count : Nat)
    (acc : BandEnergy) : BandEnergy :=
  (List.range' first count).foldl (bandStepOn sampleRate magnitudeAt) acc

/-! ## Scenario buffers -/

/-- A recording of 2048 s at 8000 Hz that is silent except for two clicks of
amplitude 1, at sample 0 (0 s) and at sample 8 192 000 (1024 s). -/
def twoClicks (s : Nat) : ℚ := if s = 0 ∨ s = 8192000 then 1 else 0

/-- The engine holding the `twoClicks` recording (16 384 000 samples at 8000 Hz). -/
def twoClicksEngine : Engine := engineWithBuffer 16384000 8000 twoClicks

/-- The energy of segment `i` of the `twoClicks` recording: segments 0 and 512
hold a click. -/
def twoClicksEnergyAt (i : Nat) : ℚ := if i = 0 ∨ i = 512 then 1 else 0

/-- The segment energies of the `twoClicks` recording. -/
def twoClicksEnergies : List ℚ := (List.range 1024).map twoClicksEnergyAt

/-- The spike train of the 120 BPM scenario: amplitude 1 at the sample indices
`22050 * k`, 0 elsewhere. -/
def spikeTrain (s : Nat) : ℚ := if s % 22050 = 0 then 1 else 0

/-- The engine holding 10 s of the spike train: 441 000 samples at 44 100 Hz, with
the spikes `k = 0, ..., 19`. -/
def spikeTrainEngine : Engine := engineWithBuffer 441000 44100 spikeTrain

/-- The energy of segment `i` of the spike train: the segment covers the samples
`[430 i, 430 i + 430)` and has energy 1 exactly when a multiple of 22050 is among them. -/
def spikeTrainEnergyAt (i : Nat) : ℚ :=
  if 430 * i ≤ (430 * i + 429) / 22050 * 22050 then 1 else 0

/-- The segment energies of the spike train. -/
def spikeTrainEnergies : List ℚ := (List.range 1024).map spikeTrainEnergyAt

/-- The onset timestamps of the `twoClicks` recording. -/
def twoClicksOnsets : List ℚ := [0, 1024]

/-- The onset timestamps of the spike train: segment index times `10 / 1024`, for the
segments 0, 51, 102, 153, 205, 256, 307, 358, 410, 461, 512, 564, 615, 666, 717,
769, 820, 871, 923, 974. -/
def spikeTrainOnsets : List ℚ :=
  [0, 255 / 512, 255 / 256, 765 / 512, 1025 / 512, 5 / 2, 1535 / 512, 895 / 256,
   1025 / 256, 2305 / 512, 5, 705 / 128, 3075 / 512, 1665 / 256, 3585 / 512,
   3845 / 512, 1025 / 128, 4355 / 512, 4615 / 512, 2435 / 256]

/-- Four samples analysed at the negative sample rate `-44100`. -/
def negativeRateEngine : Engine := engineWithBuffer 4 (-44100) fourSamples

/-- An overview point left over from an earlier analysis. -/
def stalePoint : WaveformPoint := { minValue := -1 / 2, maxValue := 1 / 2, r := 10, g := 20, b := 30 }

/-- An engine that still holds the results of a previously analysed file: one
overview point, two onsets and a tempo of 120. -/
def loadedEngine : Engine :=
  { engineWithBuffer 4 44100 fourSamples with
    overviewWaveformPoints := [stalePoint]
    detectedBPM := 120
    detectedBeatTimestamps := [1 / 2, 1]
    hasPlaybackSource := true
    fftInvocations := 1 }

/-- The engine `loadedEngine` whose buffer has been emptied (`N = 0`). -/
def emptiedEngine : Engine :=
  { loadedEngine with audioBuffer := { numChannels := 1, numSamples := 0, channel0 := fun _ => 0 } }

/-- An engine whose overview holds two points, a loud one (energy 1) followed by a
silent one, for a buffer of 2048 samples at 44100 Hz. -/
def loudThenSilentEngine : Engine :=
  { engineWithBuffer 2048 44100 fourSamples with
    overviewWaveformPoints :=
      [{ minValue := 0, maxValue := 1, r := 0, g := 0, b := 0 },
       { minValue := 0, maxValue := 0, r := 0, g := 0, b := 0 }] }

/-- A buffer of 1024 samples that is silent except for a unit impulse at sample 512. -/
def centreImpulse (s : Nat) : ℚ := if s = 512 then 1 else 0

/-- The engine holding the `centreImpulse` buffer at 44100 Hz. -/
def centreImpulseEngine : Engine := engineWithBuffer 1024 44100 centreImpulse

/-- The engine holding four silent samples at 44100 Hz. -/
def silentEngine : Engine := engineWithBuffer 4 44100 fun _ => 0

/-! ## Colour bytes and band sums as the specification words them -/

/-- The sum of `values` in `float` arithmetic, added one by one onto `start`. -/
def floatSum (start : ℚ) (values : List ℚ) : ℚ :=
  values.foldl (fun acc value => toFloat (acc + value)) start

/-- The total energy `0.0001 + sum of all bin magnitudes`, in bin order. -/
def totalEnergy (mags : List ℚ) : ℚ :=
  floatSum (toFloat (1 / 10000)) ((List.range (FFT_SIZE / 2 + 1)).map fun k => mags.getD k 0)

/-- Ten seconds at 44100 Hz that are silent except for three clicks of amplitude 1,
at the samples 0, 43 000 and 107 500 (the first samples of the segments 0, 100, 250). -/
def threeClicks (s : Nat) : ℚ := if s = 0 ∨ s = 43000 ∨ s = 107500 then 1 else 0

/-- The engine holding the `threeClicks` recording (441 000 samples at 44 100 Hz). -/
def threeClicksEngine : Engine := engineWithBuffer 441000 44100 threeClicks

/-- The energy of segment `i` of the `threeClicks` recording. -/
def threeClicksEnergyAt (i : Nat) : ℚ := if i = 0 ∨ i = 100 ∨ i = 250 then 1 else 0

/-- The segment energies of the `threeClicks` recording. -/
def threeClicksEnergies : List ℚ := (List.range 1024).map threeClicksEnergyAt

/-- The onset timestamps of the `threeClicks` recording: the segments 0, 100 and 250
times `10 / 1024` s. -/
def threeClicksOnsets : List ℚ := [0, 125 / 128, 625 / 256]

/-! ## The min/max scan on samples that may be NaN -/

/-- A `float` sample: a number, or NaN. -/
inductive Sample where
  /-- The value NaN. -/
  | nan
  /-- A number. -/
  | num (value : ℚ)
deriving DecidableEq

/-- The comparison `a <= b` of C++ on `float`: false as soon as one side is NaN. -/
def Sample.le : Sample → Sample → Bool
  | Sample.num a, Sample.num b => decide (a ≤ b)
  | _, _ => false

/-- Ten seconds at 44100 Hz with a loud start and one later click: amplitude 1 at
the first sample of each of the segments 0 to 9 (samples 0, 430, ..., 3870) and at
sample 215 000 (the first sample of segment 500), silence elsewhere. -/
def loudStart (s : Nat) : ℚ := if (s % 430 = 0 ∧ s < 4300) ∨ s = 215000 then 1 else 0

/-- The engine holding the `loudStart` recording (441 000 samples at 44 100 Hz). -/
def loudStartEngine : Engine := engineWithBuffer 441000 44100 loudStart

/-- The energy of segment `i` of the `loudStart` recording. -/
def loudStartEnergyAt (i : Nat) : ℚ := if i < 10 ∨ i = 500 then 1 else 0

/-- The segment energies of the `loudStart` recording. -/
def loudStartEnergies : List ℚ := (List.range 1024).map loudStartEnergyAt

/-- The onset timestamps of the `loudStart` recording: only segment 0. -/
def loudStartOnsets : List ℚ := [0]
/-! # Theorems -/

/-! ## The segment loop -/

theorem samplesPerPoint_pos (total : Nat) : 0 < samplesPerPoint total := by
  unfold samplesPerPoint DEFAULT_OVERVIEW_RESOLUTION
  split <;> omega

theorem samplesPerPoint_eq_max (total : Nat) :
    samplesPerPoint total = max 1 (total / 1024) := by
  unfold samplesPerPoint DEFAULT_OVERVIEW_RESOLUTION
  split <;> omega

theorem startSample_lt_iff (total i : Nat) :
    startSample total i < total ↔
      i < (total + samplesPerPoint total - 1) / samplesPerPoint total := by
  have hW := samplesPerPoint_pos total
  unfold startSample
  rw [Nat.lt_iff_add_one_le (m := i), Nat.le_div_iff_mul_le hW, Nat.add_mul]
  omega

/-- The segment loop pushes the points of the indices `i, i + 1, ...` in order,
until the counter or the buffer is exhausted. -/
theorem segmentLoop_eq_map (fftMag : List ℚ → List ℚ) (buf : AudioBuffer) (sampleRate : ℚ)
    (remaining i : Nat) :
    segmentLoop fftMag buf sampleRate remaining i =
      (List.range' i (min remaining
        ((buf.numSamples + samplesPerPoint buf.numSamples - 1) / samplesPerPoint buf.numSamples
          - i))).map
        fun j => (analysePoint fftMag buf sampleRate j, fftInvoked buf.numSamples j) := by
  induction remaining generalizing i with
  | zero => simp [segmentLoop]
  | succ n ih =>
    unfold segmentLoop
    have hiff := startSample_lt_iff buf.numSamples i
    by_cases hlt : startSample buf.numSamples i < buf.numSamples
    · have hi := hiff.mp hlt
      rw [if_neg (by omega), ih (i + 1)]
      have hmin : min (n + 1)
          ((buf.numSamples + samplesPerPoint buf.numSamples - 1) /
            samplesPerPoint buf.numSamples - i) =
          min n ((buf.numSamples + samplesPerPoint buf.numSamples - 1) /
            samplesPerPoint buf.numSamples - (i + 1)) + 1 := by omega
      rw [hmin, List.range'_succ, List.map_cons]
    · have hi : ¬ i < (buf.numSamples + samplesPerPoint buf.numSamples - 1) /
          samplesPerPoint buf.numSamples := fun h => hlt (hiff.mpr h)
      rw [if_pos (by omega)]
      have hmin : min (n + 1)
          ((buf.numSamples + samplesPerPoint buf.numSamples - 1) /
            samplesPerPoint buf.numSamples - i) = 0 := by omega
      rw [hmin]
      rfl

theorem segmentLoop_length (fftMag : List ℚ → List ℚ) (buf : AudioBuffer) (sampleRate : ℚ) :
    (segmentLoop fftMag buf sampleRate DEFAULT_OVERVIEW_RESOLUTION 0).length =
      segmentCount buf.numSamples := by
  rw [segmentLoop_eq_map]
  simp [segmentCount]

theorem segmentCount_eq_min (total : Nat) : segmentCount total = min 1024 total := by
  unfold segmentCount DEFAULT_OVERVIEW_RESOLUTION
  have hW := samplesPerPoint_pos total
  have hmax := samplesPerPoint_eq_max total
  by_cases hsmall : total < 1024
  · have h1 : samplesPerPoint total = 1 := by
      rw [hmax]
      have : total / 1024 = 0 := Nat.div_eq_of_lt hsmall
      omega
    rw [h1]
    simp
  · have hle : 1024 ≤ (total + samplesPerPoint total - 1) / samplesPerPoint total := by
      rw [Nat.le_div_iff_mul_le hW]
      have h2 : samplesPerPoint total = total / 1024 := by
        rw [hmax]
        have : 1 ≤ total / 1024 := by
          rw [Nat.le_div_iff_mul_le (by norm_num)]
          omega
        omega
      have h3 : 1024 * (total / 1024) ≤ total := Nat.mul_div_le total 1024
      rw [h2]
      omega
    omega

/-- The overview after an analysis that passed the entry guard. -/
theorem overview_eq_map (fftMag : List ℚ → List ℚ) (e : Engine)
    (hN : e.audioBuffer.numSamples ≠ 0) (hsr : e.currentSampleRate ≠ 0) :
    (performFullWaveformAnalysis fftMag e).overviewWaveformPoints =
      (List.range (segmentCount e.audioBuffer.numSamples)).map
        (analysePoint fftMag e.audioBuffer e.currentSampleRate) := by
  unfold performFullWaveformAnalysis
  rw [if_neg (by simp [hN, hsr])]
  simp only [segmentLoop_eq_map, List.map_map, segmentCount, Nat.sub_zero, List.range_eq_range']
  rfl

/-! ## Envelope of a segment -/

theorem scanMinMax_spec (x : Nat → ℚ) (lo : Nat) (k s : Nat) (acc : ℚ × ℚ)
    (hmin : IsMinOn x lo s acc.1) (hmax : IsMaxOn x lo s acc.2) :
    IsMinOn x lo (s + k) (scanMinMax x k s acc).1 ∧
      IsMaxOn x lo (s + k) (scanMinMax x k s acc).2 := by
  induction k generalizing s acc with
  | zero => exact ⟨hmin, hmax⟩
  | succ k ih =>
    unfold scanMinMax
    have hlo : lo ≤ s := by
      obtain ⟨⟨t, h1, h2, _⟩, _⟩ := hmin
      omega
    have key := ih (s + 1)
      (if x s < acc.1 then x s else acc.1, if x s > acc.2 then x s else acc.2) ?_ ?_
    · have hs : s + 1 + k = s + (k + 1) := by omega
      rw [hs] at key
      exact key
    · obtain ⟨⟨t, h1, h2, h3⟩, hb⟩ := hmin
      dsimp only
      split
      · rename_i hlt
        refine ⟨⟨s, hlo, by omega, rfl⟩, fun u hu1 hu2 => ?_⟩
        rcases Nat.lt_or_ge u s with hu | hu
        · exact le_trans (le_of_lt hlt) (hb u hu1 hu)
        · have : u = s := by omega
          rw [this]
      · rename_i hlt
        refine ⟨⟨t, h1, by omega, h3⟩, fun u hu1 hu2 => ?_⟩
        rcases Nat.lt_or_ge u s with hu | hu
        · exact hb u hu1 hu
        · have : u = s := by omega
          rw [this]
          exact not_lt.mp hlt
    · obtain ⟨⟨t, h1, h2, h3⟩, hb⟩ := hmax
      dsimp only
      split
      · rename_i hlt
        refine ⟨⟨s, hlo, by omega, rfl⟩, fun u hu1 hu2 => ?_⟩
        rcases Nat.lt_or_ge u s with hu | hu
        · exact le_trans (hb u hu1 hu) (le_of_lt hlt)
        · have : u = s := by omega
          rw [this]
      · rename_i hlt
        refine ⟨⟨t, h1, by omega, h3⟩, fun u hu1 hu2 => ?_⟩
        rcases Nat.lt_or_ge u s with hu | hu
        · exact hb u hu1 hu
        · have : u = s := by omega
          rw [this]
          exact not_lt.mp hlt

/-- The envelope of a non-empty range is its least and its greatest sample. -/
theorem envelope_spec (x : Nat → ℚ) (start stop : Nat) (h : start < stop) :
    IsMinOn x start stop (envelope x start stop).1 ∧
      IsMaxOn x start stop (envelope x start stop).2 := by
  have key := scanMinMax_spec x start (stop - (start + 1)) (start + 1) (x start, x start)
    ⟨⟨start, le_refl _, by omega, rfl⟩, fun u h1 h2 => by
      have : u = start := by omega
      rw [this]⟩
    ⟨⟨start, le_refl _, by omega, rfl⟩, fun u h1 h2 => by
      have : u = start := by omega
      rw [this]⟩
  have hs : start + 1 + (stop - (start + 1)) = stop := by omega
  rw [hs] at key
  exact key

theorem endSample_eq_min (total i : Nat) :
    endSample total i = min ((i + 1) * max 1 (total / 1024)) total := by
  unfold endSample startSample
  rw [samplesPerPoint_eq_max, Nat.add_mul]
  split <;> omega

theorem startSample_eq (total i : Nat) :
    startSample total i = i * max 1 (total / 1024) := by
  unfold startSample
  rw [samplesPerPoint_eq_max]

theorem startSample_lt_endSample (total i : Nat) (h : startSample total i < total) :
    startSample total i < endSample total i := by
  have hW := samplesPerPoint_pos total
  unfold endSample
  split <;> omega

theorem lt_segmentCount (total i : Nat) (h : i < segmentCount total) :
    startSample total i < total := by
  rw [startSample_lt_iff]
  unfold segmentCount at h
  omega

theorem analysePoint_minValue (fftMag : List ℚ → List ℚ) (buf : AudioBuffer) (sampleRate : ℚ)
    (i : Nat) :
    (analysePoint fftMag buf sampleRate i).minValue =
      (envelope buf.channel0 (startSample buf.numSamples i) (endSample buf.numSamples i)).1 :=
  rfl

theorem analysePoint_maxValue (fftMag : List ℚ → List ℚ) (buf : AudioBuffer) (sampleRate : ℚ)
    (i : Nat) :
    (analysePoint fftMag buf sampleRate i).maxValue =
      (envelope buf.channel0 (startSample buf.numSamples i) (endSample buf.numSamples i)).2 :=
  rfl

/-! ## C1 and the envelope of a buffer of numbers -/

/-- C1: a buffer of `N ≥ 1` samples with a non-zero sample rate yields exactly
`min(1024, N)` overview segments: 1024 of them when `N ≥ 1024`, and `N` (one
point per sample) when `N < 1024`. -/
theorem overview_length (fftMag : List ℚ → List ℚ) (e : Engine)
    (hN : 1 ≤ e.audioBuffer.numSamples) (hsr : e.currentSampleRate ≠ 0) :
    (performFullWaveformAnalysis fftMag e).overviewWaveformPoints.length =
        min 1024 e.audioBuffer.numSamples ∧
      (1024 ≤ e.audioBuffer.numSamples →
        (performFullWaveformAnalysis fftMag e).overviewWaveformPoints.length = 1024) ∧
      (e.audioBuffer.numSamples < 1024 →
        (performFullWaveformAnalysis fftMag e).overviewWaveformPoints.length =
          e.audioBuffer.numSamples) := by
  have hlen : (performFullWaveformAnalysis fftMag e).overviewWaveformPoints.length =
      min 1024 e.audioBuffer.numSamples := by
    rw [overview_eq_map fftMag e (by omega) hsr, List.length_map, List.length_range,
      segmentCount_eq_min]
  refine ⟨hlen, fun h => ?_, fun h => ?_⟩ <;> rw [hlen] <;> omega

/-- The envelope of a buffer of numbers: the stored `minValue` and `maxValue` of every
produced segment `i` are the minimum and the maximum of the channel-0 samples with
index in `[i * W, min((i + 1) * W, N))`, `W = max(1, N / 1024)`; hence
`minValue ≤ maxValue`. -/
theorem overview_envelope (fftMag : List ℚ → List ℚ) (e : Engine) (i : Nat)
    (point : WaveformPoint)
    (hpoint : (performFullWaveformAnalysis fftMag e).overviewWaveformPoints[i]? = some point) :
    IsMinOn e.audioBuffer.channel0 (i * max 1 (e.audioBuffer.numSamples / 1024))
        (min ((i + 1) * max 1 (e.audioBuffer.numSamples / 1024)) e.audioBuffer.numSamples)
        point.minValue ∧
      IsMaxOn e.audioBuffer.channel0 (i * max 1 (e.audioBuffer.numSamples / 1024))
        (min ((i + 1) * max 1 (e.audioBuffer.numSamples / 1024)) e.audioBuffer.numSamples)
        point.maxValue ∧
      point.minValue ≤ point.maxValue := by
  by_cases hguard : e.audioBuffer.numSamples = 0 ∨ e.currentSampleRate = 0
  · simp [performFullWaveformAnalysis, hguard] at hpoint
  · push_neg at hguard
    rw [overview_eq_map fftMag e hguard.1 hguard.2] at hpoint
    rw [List.getElem?_map] at hpoint
    have hi : i < segmentCount e.audioBuffer.numSamples := by
      by_contra hge
      rw [List.getElem?_eq_none (by simpa using hge)] at hpoint
      simp at hpoint
    rw [List.getElem?_range hi] at hpoint
    simp only [Option.map_some', Option.some.injEq] at hpoint
    have hstart := lt_segmentCount _ _ hi
    have henv := envelope_spec e.audioBuffer.channel0 _ _
      (startSample_lt_endSample _ _ hstart)
    subst hpoint
    rw [analysePoint_minValue, analysePoint_maxValue]
    rw [startSample_eq, endSample_eq_min] at henv ⊢
    refine ⟨henv.1, henv.2, ?_⟩
    obtain ⟨⟨s, h1, h2, h3⟩, _⟩ := henv.1
    have hle := henv.2.2 s h1 h2
    rw [h3] at hle
    exact hle

/-! ## The onset loop -/

theorem onsetLoopState_zero (energies : List ℚ) (duration : ℚ) :
    onsetLoopState energies duration 0 = (initialEnergySum energies, []) := rfl

theorem onsetLoopState_succ (energies : List ℚ) (duration : ℚ) (i : Nat) :
    onsetLoopState energies duration (i + 1) =
      onsetStep energies duration (onsetLoopState energies duration i) i := by
  unfold onsetLoopState
  rw [List.range_succ, List.foldl_append]
  rfl

theorem onsetLoopState_add (energies : List ℚ) (duration : ℚ) (first count : Nat) :
    onsetLoopState energies duration (first + count) =
      onsetLoopFrom energies duration first count (onsetLoopState energies duration first) := by
  induction count with
  | zero => rfl
  | succ n ih =>
    rw [← Nat.add_assoc, onsetLoopState_succ, ih]
    unfold onsetLoopFrom
    rw [List.range'_concat, List.foldl_append]
    simp [Nat.add_comm]

/-- Appending an accepted timestamp keeps the gaps of the onset list above `0.2`. -/
theorem acceptOnset_chain (energies : List ℚ) (duration : ℚ) (i : Nat) (energySum : ℚ)
    (onsets : List ℚ) (h : List.Chain' (fun a b : ℚ => b - a > 1 / 5) onsets) :
    List.Chain' (fun a b : ℚ => b - a > 1 / 5)
      (acceptOnset energies duration i energySum onsets) := by
  unfold acceptOnset
  dsimp only
  split
  · split
    · rename_i hacc
      rw [List.chain'_append]
      refine ⟨h, List.chain'_singleton _, ?_⟩
      intro a ha b hb
      simp only [List.head?_cons, Option.mem_def, Option.some.injEq] at hb
      subst hb
      rcases hacc with hnil | hgap
      · subst hnil
        simp at ha
      · have hlast : onsets.getLastD 0 = a := by
          rw [List.getLastD_eq_getLast?]
          rw [Option.mem_def] at ha
          rw [ha]
          rfl
        rw [hlast] at hgap
        exact hgap
    · exact h
  · exact h

theorem onsetLoopState_chain (energies : List ℚ) (duration : ℚ) (i : Nat) :
    List.Chain' (fun a b : ℚ => b - a > 1 / 5) (onsetLoopState energies duration i).2 := by
  induction i with
  | zero => exact List.chain'_nil
  | succ n ih =>
    rw [onsetLoopState_succ]
    exact acceptOnset_chain energies duration n _ _ ih

theorem detectOnsets_chain (energies : List ℚ) (duration : ℚ) :
    List.Chain' (fun a b : ℚ => b - a > 1 / 5) (detectOnsets energies duration) :=
  onsetLoopState_chain energies duration energies.length

/-- The stored onset list is empty or the list accepted by the onset loop. -/
theorem beats_eq_acceptedOnsets (e : Engine) :
    (performBeatDetection e).detectedBeatTimestamps = acceptedOnsets e := by
  unfold performBeatDetection acceptedOnsets
  dsimp only
  split
  · rfl
  · split
    · rfl
    · split
      · rfl
      · split <;> rfl

theorem acceptedOnsets_chain (e : Engine) :
    List.Chain' (fun a b : ℚ => b - a > 1 / 5) (acceptedOnsets e) := by
  unfold acceptedOnsets
  split
  · exact List.chain'_nil
  · split
    · exact List.chain'_nil
    · split
      · exact List.chain'_nil
      · exact detectOnsets_chain _ _

/-! ## C3 -/

/-- C3: the onset list stored by `performBeatDetection` is strictly increasing, and
every two consecutive onset timestamps differ by more than `0.2` s. -/
theorem onsets_increasing_with_gaps (e : Engine) :
    List.Sorted (fun a b : ℚ => a < b) (performBeatDetection e).detectedBeatTimestamps ∧
      List.Chain' (fun a b : ℚ => b - a > 1 / 5)
        (performBeatDetection e).detectedBeatTimestamps := by
  rw [beats_eq_acceptedOnsets]
  have hchain := acceptedOnsets_chain e
  refine ⟨?_, hchain⟩
  unfold List.Sorted
  rw [← List.chain'_iff_pairwise]
  refine List.Chain'.imp (fun a b hab => ?_) hchain
  linarith

/-- The scenario of C1 with `N = 100` samples at 44100 Hz: 100 overview segments. -/
theorem overview_length_witness :
    (performFullWaveformAnalysis flatSpectrum
        (engineWithBuffer 100 44100 fourSamples)).overviewWaveformPoints.length = 100 :=
  (overview_length flatSpectrum (engineWithBuffer 100 44100 fourSamples)
    (by decide) (by simp [engineWithBuffer])).2.2 (by decide)

/-- Segment 1 of the four-sample buffer `0, 1/2, -1/4, 1` covers the single sample
`1/2`, which is both its minimum and its maximum. -/
theorem overview_envelope_witness :
    IsMinOn fourSamples 1 2 (1 / 2) ∧ IsMaxOn fourSamples 1 2 (1 / 2) ∧ (1 / 2 : ℚ) ≤ 1 / 2 :=
  overview_envelope flatSpectrum (engineWithBuffer 4 44100 fourSamples) 1
    (analysePoint flatSpectrum (engineWithBuffer 4 44100 fourSamples).audioBuffer 44100 1)
    (by
      rw [overview_eq_map flatSpectrum _ (by decide) (by simp [engineWithBuffer]),
        List.getElem?_map, List.getElem?_range (by decide)]
      rfl)

/-! ## Octave folding -/

theorem doubleWhileSlow_spec (fuel : Nat) (bpm : ℚ) (hpos : 1 / 10 < bpm)
    (hfuel : 70 ≤ bpm * 2 ^ fuel) :
    70 ≤ doubleWhileSlow fuel bpm ∧
      (doubleWhileSlow fuel bpm < 140 ∨ doubleWhileSlow fuel bpm = bpm) := by
  induction fuel generalizing bpm with
  | zero =>
    unfold doubleWhileSlow
    simp only [pow_zero, mul_one] at hfuel
    exact ⟨hfuel, Or.inr rfl⟩
  | succ n ih =>
    unfold doubleWhileSlow
    split
    · rename_i hcond
      have hrec := ih (bpm * 2) (by linarith) (by rw [pow_succ] at hfuel; linarith)
      refine ⟨hrec.1, Or.inl ?_⟩
      rcases hrec.2 with h | h
      · exact h
      · rw [h]
        linarith [hcond.1]
    · rename_i hcond
      have h70 : 70 ≤ bpm := by
        by_contra hlt
        exact hcond ⟨not_le.mp hlt, hpos⟩
      exact ⟨h70, Or.inr rfl⟩

theorem doubleWhileSlow_small (fuel : Nat) (bpm : ℚ) (h : bpm ≤ 1 / 10) :
    doubleWhileSlow fuel bpm = bpm := by
  cases fuel with
  | zero => rfl
  | succ n =>
    unfold doubleWhileSlow
    rw [if_neg]
    intro hcond
    linarith [hcond.2]

theorem halveWhileFast_spec (fuel : Nat) (bpm : ℚ) (hfuel : bpm ≤ 180 * 2 ^ fuel) :
    halveWhileFast fuel bpm ≤ 180 ∧
      (halveWhileFast fuel bpm = bpm ∨ 90 < halveWhileFast fuel bpm) := by
  induction fuel generalizing bpm with
  | zero =>
    unfold halveWhileFast
    simp only [pow_zero, mul_one] at hfuel
    exact ⟨hfuel, Or.inl rfl⟩
  | succ n ih =>
    unfold halveWhileFast
    split
    · rename_i hcond
      have hrec := ih (bpm / 2) (by rw [pow_succ] at hfuel; linarith)
      refine ⟨hrec.1, Or.inr ?_⟩
      rcases hrec.2 with h | h
      · rw [h]
        linarith
      · exact h
    · rename_i hcond
      exact ⟨not_lt.mp hcond, Or.inl rfl⟩

theorem halveFuel_enough (bpm : ℚ) : bpm ≤ 180 * 2 ^ halveFuel bpm := by
  unfold halveFuel
  have h1 : bpm ≤ (Nat.ceil bpm : ℚ) := Nat.le_ceil bpm
  have h2 : ((Nat.ceil bpm : ℕ) : ℚ) ≤ (2 : ℚ) ^ Nat.ceil bpm := by
    exact_mod_cast (Nat.lt_two_pow (Nat.ceil bpm)).le
  have h3 : (0 : ℚ) ≤ 2 ^ Nat.ceil bpm := by positivity
  linarith

/-- Both folding loops end by their own exit test (the fuel is never used up), and
the folded value of a positive raw tempo is in `[70, 180]` or is the raw tempo
itself when that does not exceed `0.1`. -/
theorem foldOctave_range (bpm : ℚ) (hpos : 0 < bpm) :
    (70 ≤ foldOctave bpm ∧ foldOctave bpm ≤ 180) ∨
      (bpm ≤ 1 / 10 ∧ foldOctave bpm = bpm) := by
  unfold foldOctave
  have hh := halveWhileFast_spec (halveFuel (doubleWhileSlow doubleFuel bpm))
    (doubleWhileSlow doubleFuel bpm) (halveFuel_enough _)
  by_cases hsmall : bpm ≤ 1 / 10
  · right
    refine ⟨hsmall, ?_⟩
    rw [doubleWhileSlow_small doubleFuel bpm hsmall] at hh ⊢
    rcases hh.2 with h | h
    · exact h
    · exfalso
      have hnot : ¬ bpm > 180 := by
        intro hgt
        linarith
      have : halveWhileFast (halveFuel bpm) bpm = bpm := by
        cases halveFuel bpm with
        | zero => rfl
        | succ n =>
          unfold halveWhileFast
          rw [if_neg hnot]
      rw [this] at h
      linarith
  · left
    have hd := doubleWhileSlow_spec doubleFuel bpm (not_le.mp hsmall) (by
      unfold doubleFuel
      have : (1 : ℚ) / 10 < bpm := not_le.mp hsmall
      norm_num
      linarith)
    refine ⟨?_, hh.1⟩
    rcases hh.2 with h | h
    · rw [h]
      exact hd.1
    · by_contra hlt
      have hlt2 := not_le.mp hlt
      have hnot : ¬ doubleWhileSlow doubleFuel bpm > 180 := by
        intro hgt
        rcases hd.2 with h140 | heq
        · linarith
        · -- the halving loop ran at least once and stopped above 90
          linarith
      have : halveWhileFast (halveFuel (doubleWhileSlow doubleFuel bpm))
          (doubleWhileSlow doubleFuel bpm) = doubleWhileSlow doubleFuel bpm := by
        cases halveFuel (doubleWhileSlow doubleFuel bpm) with
        | zero => rfl
        | succ n =>
          unfold halveWhileFast
          rw [if_neg hnot]
      rw [this] at hlt2
      linarith [hd.1]

/-- The exit tests of both loops fail on the folded value: the loops have terminated. -/
theorem foldOctave_done (bpm : ℚ) (hpos : 0 < bpm) :
    ¬ foldOctave bpm > 180 ∧ ¬ (foldOctave bpm < 70 ∧ foldOctave bpm > 1 / 10) := by
  rcases foldOctave_range bpm hpos with h | h
  · exact ⟨by linarith [h.2], fun hc => by linarith [hc.1, h.1]⟩
  · rw [h.2]
    exact ⟨by linarith [h.1], fun hc => by linarith [hc.2, h.1]⟩

theorem bpmFromOnsets_range (onsets : List ℚ) :
    bpmFromOnsets onsets = 0 ∨
      (70 ≤ bpmFromOnsets onsets ∧ bpmFromOnsets onsets ≤ 180) ∨
      (0 < bpmFromOnsets onsets ∧ bpmFromOnsets onsets ≤ 1 / 10) := by
  unfold bpmFromOnsets
  dsimp only
  split
  · exact Or.inl rfl
  · split
    · rename_i hmed
      have hraw : (0 : ℚ) < 60 / medianIOI (interOnsetIntervals onsets) := by
        apply div_pos (by norm_num)
        linarith
      rcases foldOctave_range _ hraw with h | h
      · exact Or.inr (Or.inl h)
      · refine Or.inr (Or.inr ?_)
        rw [h.2]
        exact ⟨hraw, h.1⟩
    · exact Or.inl rfl

/-- The stored tempo is 0 or the tempo computed from the accepted onsets. -/
theorem bpm_eq (e : Engine) :
    (performBeatDetection e).detectedBPM =
      if (acceptedOnsets e).length < 2 then 0 else bpmFromOnsets (acceptedOnsets e) := by
  unfold performBeatDetection acceptedOnsets
  dsimp only
  split
  · rfl
  · split
    · rfl
    · split
      · rfl
      · split <;> rfl

/-! ## From the overview to the onset loop -/

theorem analysis_audioBuffer (fftMag : List ℚ → List ℚ) (e : Engine) :
    (performFullWaveformAnalysis fftMag e).audioBuffer = e.audioBuffer := by
  unfold performFullWaveformAnalysis
  dsimp only
  split <;> rfl

theorem analysis_sampleRate (fftMag : List ℚ → List ℚ) (e : Engine) :
    (performFullWaveformAnalysis fftMag e).currentSampleRate = e.currentSampleRate := by
  unfold performFullWaveformAnalysis
  dsimp only
  split <;> rfl

/-- The segment energies after an analysis that passed the entry guard. -/
theorem energiesOf_overview (fftMag : List ℚ → List ℚ) (e : Engine)
    (hN : e.audioBuffer.numSamples ≠ 0) (hsr : e.currentSampleRate ≠ 0) :
    energiesOf (performFullWaveformAnalysis fftMag e).overviewWaveformPoints =
      (List.range (segmentCount e.audioBuffer.numSamples)).map fun i =>
        (envelope e.audioBuffer.channel0 (startSample e.audioBuffer.numSamples i)
            (endSample e.audioBuffer.numSamples i)).2 -
          (envelope e.audioBuffer.channel0 (startSample e.audioBuffer.numSamples i)
            (endSample e.audioBuffer.numSamples i)).1 := by
  rw [overview_eq_map fftMag e hN hsr]
  unfold energiesOf
  rw [List.map_map]
  rfl

/-- The onsets accepted on a freshly analysed buffer with at least two segments. -/
theorem acceptedOnsets_analysis (fftMag : List ℚ → List ℚ) (e : Engine)
    (hN : 2 ≤ e.audioBuffer.numSamples) (hsr : e.currentSampleRate ≠ 0) :
    acceptedOnsets (performFullWaveformAnalysis fftMag e) =
      detectOnsets (energiesOf (performFullWaveformAnalysis fftMag e).overviewWaveformPoints)
        (analysisDuration e) := by
  have hlen : (energiesOf
      (performFullWaveformAnalysis fftMag e).overviewWaveformPoints).length =
      min 1024 e.audioBuffer.numSamples := by
    rw [energiesOf_overview fftMag e (by omega) hsr, List.length_map, List.length_range,
      segmentCount_eq_min]
  have hne : (performFullWaveformAnalysis fftMag e).overviewWaveformPoints ≠ [] := by
    intro hnil
    rw [hnil] at hlen
    simp [energiesOf] at hlen
    omega
  unfold acceptedOnsets
  rw [analysis_audioBuffer, analysis_sampleRate]
  rw [if_neg (by
    intro h
    rcases h with h | h
    · omega
    · exact hsr h), if_neg hne, if_neg (by rw [hlen]; omega)]
  unfold analysisDuration
  rw [analysis_audioBuffer, analysis_sampleRate]

/-! ## Buffers of clicks -/

/-- The envelope of a range whose samples are all 0 or 1 and that holds a 0:
the minimum is 0, and the maximum is 1 or 0 according to whether a 1 is present. -/
theorem envelope_of_clicks (x : Nat → ℚ) (start stop : Nat) (h : start < stop)
    (h01 : ∀ s, start ≤ s → s < stop → x s = 0 ∨ x s = 1)
    (hzero : ∃ s, start ≤ s ∧ s < stop ∧ x s = 0) :
    (envelope x start stop).1 = 0 ∧
      ((∃ s, start ≤ s ∧ s < stop ∧ x s = 1) → (envelope x start stop).2 = 1) ∧
      ((∀ s, start ≤ s → s < stop → x s = 0) → (envelope x start stop).2 = 0) := by
  obtain ⟨⟨⟨s1, a1, b1, c1⟩, hlow⟩, ⟨⟨s2, a2, b2, c2⟩, hhigh⟩⟩ := envelope_spec x start stop h
  refine ⟨?_, ?_, ?_⟩
  · obtain ⟨s, a, b, c⟩ := hzero
    have hle := hlow s a b
    rw [c] at hle
    rcases h01 s1 a1 b1 with h0 | h1
    · rw [← c1, h0]
    · rw [← c1, h1] at hle
      norm_num at hle
  · rintro ⟨s, a, b, c⟩
    have hle := hhigh s a b
    rw [c] at hle
    rcases h01 s2 a2 b2 with h0 | h1
    · rw [← c2, h0] at hle
      norm_num at hle
    · rw [← c2, h1]
  · intro hall
    rw [← c2, hall s2 a2 b2]

/-- The energy of a click range: 1 when a click is present, 0 otherwise. -/
theorem energy_of_clicks (x : Nat → ℚ) (start stop : Nat) (click : Prop) [Decidable click]
    (h : start < stop)
    (h01 : ∀ s, start ≤ s → s < stop → x s = 0 ∨ x s = 1)
    (hzero : ∃ s, start ≤ s ∧ s < stop ∧ x s = 0)
    (hclick : click ↔ ∃ s, start ≤ s ∧ s < stop ∧ x s = 1) :
    (envelope x start stop).2 - (envelope x start stop).1 = if click then 1 else 0 := by
  obtain ⟨hmin, hone, hnone⟩ := envelope_of_clicks x start stop h h01 hzero
  rw [hmin, sub_zero]
  split
  · rename_i hc
    exact hone (hclick.mp hc)
  · rename_i hc
    apply hnone
    intro s a b
    rcases h01 s a b with h0 | h1
    · exact h0
    · exact absurd (hclick.mpr ⟨s, a, b, h1⟩) hc

theorem twoClicks_energies (fftMag : List ℚ → List ℚ) :
    energiesOf (performFullWaveformAnalysis fftMag twoClicksEngine).overviewWaveformPoints =
      twoClicksEnergies := by
  rw [energiesOf_overview fftMag twoClicksEngine (by decide) (by simp [twoClicksEngine,
    engineWithBuffer])]
  have hcount : segmentCount twoClicksEngine.audioBuffer.numSamples = 1024 := by
    rw [segmentCount_eq_min]
    rfl
  rw [hcount]
  unfold twoClicksEnergies twoClicksEnergyAt
  apply List.map_congr_left
  intro i hi
  rw [List.mem_range] at hi
  have hstart : startSample twoClicksEngine.audioBuffer.numSamples i = 16000 * i := by
    rw [startSample_eq]
    show i * max 1 (16384000 / 1024) = 16000 * i
    norm_num
    omega
  have hend : endSample twoClicksEngine.audioBuffer.numSamples i = 16000 * i + 16000 := by
    rw [endSample_eq_min]
    show min ((i + 1) * max 1 (16384000 / 1024)) 16384000 = 16000 * i + 16000
    norm_num
    omega
  rw [hstart, hend]
  show (envelope twoClicks (16000 * i) (16000 * i + 16000)).2 -
    (envelope twoClicks (16000 * i) (16000 * i + 16000)).1 = _
  apply energy_of_clicks twoClicks _ _ (i = 0 ∨ i = 512) (by omega)
  · intro s _ _
    unfold twoClicks
    split
    · exact Or.inr rfl
    · exact Or.inl rfl
  · refine ⟨16000 * i + 1, by omega, by omega, ?_⟩
    unfold twoClicks
    rw [if_neg (by omega)]
  · constructor
    · intro hc
      refine ⟨16000 * i, le_refl _, by omega, ?_⟩
      unfold twoClicks
      rw [if_pos (by omega)]
    · rintro ⟨s, a, b, c⟩
      unfold twoClicks at c
      split at c
      · omega
      · norm_num at c

theorem spikeTrain_energies (fftMag : List ℚ → List ℚ) :
    energiesOf (performFullWaveformAnalysis fftMag spikeTrainEngine).overviewWaveformPoints =
      spikeTrainEnergies := by
  rw [energiesOf_overview fftMag spikeTrainEngine (by decide) (by simp [spikeTrainEngine,
    engineWithBuffer])]
  have hcount : segmentCount spikeTrainEngine.audioBuffer.numSamples = 1024 := by
    rw [segmentCount_eq_min]
    rfl
  rw [hcount]
  unfold spikeTrainEnergies spikeTrainEnergyAt
  apply List.map_congr_left
  intro i hi
  rw [List.mem_range] at hi
  have hstart : startSample spikeTrainEngine.audioBuffer.numSamples i = 430 * i := by
    rw [startSample_eq]
    show i * max 1 (441000 / 1024) = 430 * i
    norm_num
    omega
  have hend : endSample spikeTrainEngine.audioBuffer.numSamples i = 430 * i + 430 := by
    rw [endSample_eq_min]
    show min ((i + 1) * max 1 (441000 / 1024)) 441000 = 430 * i + 430
    norm_num
    omega
  rw [hstart, hend]
  show (envelope spikeTrain (430 * i) (430 * i + 430)).2 -
    (envelope spikeTrain (430 * i) (430 * i + 430)).1 = _
  apply energy_of_clicks spikeTrain _ _ (430 * i ≤ (430 * i + 429) / 22050 * 22050) (by omega)
  · intro s _ _
    unfold spikeTrain
    split
    · exact Or.inr rfl
    · exact Or.inl rfl
  · refine ⟨430 * i + 1, by omega, by omega, ?_⟩
    unfold spikeTrain
    rw [if_neg (by omega)]
  · constructor
    · intro hc
      refine ⟨(430 * i + 429) / 22050 * 22050, hc, by omega, ?_⟩
      unfold spikeTrain
      rw [if_pos (Nat.mul_mod_left _ _)]
    · rintro ⟨s, a, b, c⟩
      unfold spikeTrain at c
      split at c
      · rename_i hmod
        have hle : s / 22050 ≤ (430 * i + 429) / 22050 := Nat.div_le_div_right (by omega)
        have hmul := Nat.mul_le_mul_right 22050 hle
        omega
      · norm_num at c

/-! ## The onset loop on the scenario buffers

The loop is evaluated in stretches of 64 iterations, on the accessor form. -/

theorem onsetLoopState_stretch (energies : List ℚ) (duration : ℚ) (first count last : Nat)
    (st st2 : ℚ × List ℚ) (hlast : first + count = last)
    (hst : onsetLoopState energies duration first = st)
    (hrun : onsetLoopFrom energies duration first count st = st2) :
    onsetLoopState energies duration last = st2 := by
  rw [← hlast, onsetLoopState_add, hst, hrun]

theorem getD_map_range (energyAt : Nat → ℚ) (size i : Nat) (hi : i < size) :
    ((List.range size).map energyAt).getD i 0 = energyAt i := by
  rw [List.getD_eq_getElem?_getD, List.getElem?_map, List.getElem?_range hi]
  rfl

theorem onsetStep_map_range (energyAt : Nat → ℚ) (size : Nat) (duration : ℚ)
    (st : ℚ × List ℚ) (i : Nat) (hi : i < size) :
    onsetStep ((List.range size).map energyAt) duration st i =
      onsetStepOn energyAt size duration st i := by
  unfold onsetStep onsetStepOn
  congr 1
  · unfold slideEnergySum slideEnergySumOn
    simp only [List.length_map, List.length_range]
    rw [getD_map_range energyAt size (i - historySize) (by omega)]
    by_cases hnext : i + 1 < size
    · rw [getD_map_range energyAt size (i + 1) hnext]
    · simp only [if_neg hnext]
  · unfold acceptOnset acceptOnsetOn
    rw [getD_map_range energyAt size i hi]

theorem onsetLoopFrom_map_range (energyAt : Nat → ℚ) (size : Nat) (duration : ℚ)
    (first count : Nat) (st : ℚ × List ℚ) (h : first + count ≤ size) :
    onsetLoopFrom ((List.range size).map energyAt) duration first count st =
      onsetLoopFromOn energyAt size duration first count st := by
  unfold onsetLoopFrom onsetLoopFromOn
  induction count generalizing first st with
  | zero => rfl
  | succ n ih =>
    rw [List.range'_succ, List.foldl_cons, List.foldl_cons,
      onsetStep_map_range energyAt size duration st first (by omega)]
    exact ih (first + 1) _ (by omega)

theorem twoClicks_stretch0 :
    onsetLoopFromOn twoClicksEnergyAt 1024 2048 0 64 (1, twoClicksOnsets.take 0) =
      (0, twoClicksOnsets.take 1) := by
  decide!

theorem twoClicks_stretch1 :
    onsetLoopFromOn twoClicksEnergyAt 1024 2048 64 64 (0, twoClicksOnsets.take 1) =
      (0, twoClicksOnsets.take 1) := by
  decide!

theorem twoClicks_stretch2 :
    onsetLoopFromOn twoClicksEnergyAt 1024 2048 128 64 (0, twoClicksOnsets.take 1) =
      (0, twoClicksOnsets.take 1) := by
  decide!

theorem twoClicks_stretch3 :
    onsetLoopFromOn twoClicksEnergyAt 1024 2048 192 64 (0, twoClicksOnsets.take 1) =
      (0, twoClicksOnsets.take 1) := by
  decide!

theorem twoClicks_stretch4 :
    onsetLoopFromOn twoClicksEnergyAt 1024 2048 256 64 (0, twoClicksOnsets.take 1) =
      (0, twoClicksOnsets.take 1) := by
  decide!

theorem twoClicks_stretch5 :
    onsetLoopFromOn twoClicksEnergyAt 1024 2048 320 64 (0, twoClicksOnsets.take 1) =
      (0, twoClicksOnsets.take 1) := by
  decide!

theorem twoClicks_stretch6 :
    onsetLoopFromOn twoClicksEnergyAt 1024 2048 384 64 (0, twoClicksOnsets.take 1) =
      (0, twoClicksOnsets.take 1) := by
  decide!

theorem twoClicks_stretch7 :
    onsetLoopFromOn twoClicksEnergyAt 1024 2048 448 64 (0, twoClicksOnsets.take 1) =
      (1, twoClicksOnsets.take 1) := by
  decide!

theorem twoClicks_stretch8 :
    onsetLoopFromOn twoClicksEnergyAt 1024 2048 512 64 (1, twoClicksOnsets.take 1) =
      (0, twoClicksOnsets.take 2) := by
  decide!

theorem twoClicks_stretch9 :
    onsetLoopFromOn twoClicksEnergyAt 1024 2048 576 64 (0, twoClicksOnsets.take 2) =
      (0, twoClicksOnsets.take 2) := by
  decide!

theorem twoClicks_stretch10 :
    onsetLoopFromOn twoClicksEnergyAt 1024 2048 640 64 (0, twoClicksOnsets.take 2) =
      (0, twoClicksOnsets.take 2) := by
  decide!

theorem twoClicks_stretch11 :
    onsetLoopFromOn twoClicksEnergyAt 1024 2048 704 64 (0, twoClicksOnsets.take 2) =
      (0, twoClicksOnsets.take 2) := by
  decide!

theorem twoClicks_stretch12 :
    onsetLoopFromOn twoClicksEnergyAt 1024 2048 768 64 (0, twoClicksOnsets.take 2) =
      (0, twoClicksOnsets.take 2) := by
  decide!

theorem twoClicks_stretch13 :
    onsetLoopFromOn twoClicksEnergyAt 1024 2048 832 64 (0, twoClicksOnsets.take 2) =
      (0, twoClicksOnsets.take 2) := by
  decide!

theorem twoClicks_stretch14 :
    onsetLoopFromOn twoClicksEnergyAt 1024 2048 896 64 (0, twoClicksOnsets.take 2) =
      (0, twoClicksOnsets.take 2) := by
  decide!

theorem twoClicks_stretch15 :
    onsetLoopFromOn twoClicksEnergyAt 1024 2048 960 64 (0, twoClicksOnsets.take 2) =
      (0, twoClicksOnsets.take 2) := by
  decide!

theorem twoClicks_detectOnsets : detectOnsets twoClicksEnergies 2048 = twoClicksOnsets := by
  have hlen : twoClicksEnergies.length = 1024 := by simp [twoClicksEnergies]
  unfold detectOnsets
  rw [hlen]
  have h0 : onsetLoopState twoClicksEnergies 2048 0 = (1, twoClicksOnsets.take 0) := by
    decide!
  have h1 := onsetLoopState_stretch twoClicksEnergies 2048 0 64 64 _ _ rfl h0
    ((onsetLoopFrom_map_range twoClicksEnergyAt 1024 2048 0 64 _ (by decide)).trans
      twoClicks_stretch0)
  have h2 := onsetLoopState_stretch twoClicksEnergies 2048 64 64 128 _ _ rfl h1
    ((onsetLoopFrom_map_range twoClicksEnergyAt 1024 2048 64 64 _ (by decide)).trans
      twoClicks_stretch1)
  have h3 := onsetLoopState_stretch twoClicksEnergies 2048 128 64 192 _ _ rfl h2
    ((onsetLoopFrom_map_range twoClicksEnergyAt 1024 2048 128 64 _ (by decide)).trans
      twoClicks_stretch2)
  have h4 := onsetLoopState_stretch twoClicksEnergies 2048 192 64 256 _ _ rfl h3
    ((onsetLoopFrom_map_range twoClicksEnergyAt 1024 2048 192 64 _ (by decide)).trans
      twoClicks_stretch3)
  have h5 := onsetLoopState_stretch twoClicksEnergies 2048 256 64 320 _ _ rfl h4
    ((onsetLoopFrom_map_range twoClicksEnergyAt 1024 2048 256 64 _ (by decide)).trans
      twoClicks_stretch4)
  have h6 := onsetLoopState_stretch twoClicksEnergies 2048 320 64 384 _ _ rfl h5
    ((onsetLoopFrom_map_range twoClicksEnergyAt 1024 2048 320 64 _ (by decide)).trans
      twoClicks_stretch5)
  have h7 := onsetLoopState_stretch twoClicksEnergies 2048 384 64 448 _ _ rfl h6
    ((onsetLoopFrom_map_range twoClicksEnergyAt 1024 2048 384 64 _ (by decide)).trans
      twoClicks_stretch6)
  have h8 := onsetLoopState_stretch twoClicksEnergies 2048 448 64 512 _ _ rfl h7
    ((onsetLoopFrom_map_range twoClicksEnergyAt 1024 2048 448 64 _ (by decide)).trans
      twoClicks_stretch7)
  have h9 := onsetLoopState_stretch twoClicksEnergies 2048 512 64 576 _ _ rfl h8
    ((onsetLoopFrom_map_range twoClicksEnergyAt 1024 2048 512 64 _ (by decide)).trans
      twoClicks_stretch8)
  have h10 := onsetLoopState_stretch twoClicksEnergies 2048 576 64 640 _ _ rfl h9
    ((onsetLoopFrom_map_range twoClicksEnergyAt 1024 2048 576 64 _ (by decide)).trans
      twoClicks_stretch9)
  have h11 := onsetLoopState_stretch twoClicksEnergies 2048 640 64 704 _ _ rfl h10
    ((onsetLoopFrom_map_range twoClicksEnergyAt 1024 2048 640 64 _ (by decide)).trans
      twoClicks_stretch10)
  have h12 := onsetLoopState_stretch twoClicksEnergies 2048 704 64 768 _ _ rfl h11
    ((onsetLoopFrom_map_range twoClicksEnergyAt 1024 2048 704 64 _ (by decide)).trans
      twoClicks_stretch11)
  have h13 := onsetLoopState_stretch twoClicksEnergies 2048 768 64 832 _ _ rfl h12
    ((onsetLoopFrom_map_range twoClicksEnergyAt 1024 2048 768 64 _ (by decide)).trans
      twoClicks_stretch12)
  have h14 := onsetLoopState_stretch twoClicksEnergies 2048 832 64 896 _ _ rfl h13
    ((onsetLoopFrom_map_range twoClicksEnergyAt 1024 2048 832 64 _ (by decide)).trans
      twoClicks_stretch13)
  have h15 := onsetLoopState_stretch twoClicksEnergies 2048 896 64 960 _ _ rfl h14
    ((onsetLoopFrom_map_range twoClicksEnergyAt 1024 2048 896 64 _ (by decide)).trans
      twoClicks_stretch14)
  have h16 := onsetLoopState_stretch twoClicksEnergies 2048 960 64 1024 _ _ rfl h15
    ((onsetLoopFrom_map_range twoClicksEnergyAt 1024 2048 960 64 _ (by decide)).trans
      twoClicks_stretch15)
  rw [h16]
  rfl

theorem spikeTrain_stretch0 :
    onsetLoopFromOn spikeTrainEnergyAt 1024 10 0 64 (1, spikeTrainOnsets.take 0) =
      (0, spikeTrainOnsets.take 2) := by
  decide!

theorem spikeTrain_stretch1 :
    onsetLoopFromOn spikeTrainEnergyAt 1024 10 64 64 (0, spikeTrainOnsets.take 2) =
      (0, spikeTrainOnsets.take 3) := by
  decide!

theorem spikeTrain_stretch2 :
    onsetLoopFromOn spikeTrainEnergyAt 1024 10 128 64 (0, spikeTrainOnsets.take 3) =
      (0, spikeTrainOnsets.take 4) := by
  decide!

theorem spikeTrain_stretch3 :
    onsetLoopFromOn spikeTrainEnergyAt 1024 10 192 64 (0, spikeTrainOnsets.take 4) =
      (1, spikeTrainOnsets.take 5) := by
  decide!

theorem spikeTrain_stretch4 :
    onsetLoopFromOn spikeTrainEnergyAt 1024 10 256 64 (1, spikeTrainOnsets.take 5) =
      (0, spikeTrainOnsets.take 7) := by
  decide!

theorem spikeTrain_stretch5 :
    onsetLoopFromOn spikeTrainEnergyAt 1024 10 320 64 (0, spikeTrainOnsets.take 7) =
      (0, spikeTrainOnsets.take 8) := by
  decide!

theorem spikeTrain_stretch6 :
    onsetLoopFromOn spikeTrainEnergyAt 1024 10 384 64 (0, spikeTrainOnsets.take 8) =
      (0, spikeTrainOnsets.take 9) := by
  decide!

theorem spikeTrain_stretch7 :
    onsetLoopFromOn spikeTrainEnergyAt 1024 10 448 64 (0, spikeTrainOnsets.take 9) =
      (1, spikeTrainOnsets.take 10) := by
  decide!

theorem spikeTrain_stretch8 :
    onsetLoopFromOn spikeTrainEnergyAt 1024 10 512 64 (1, spikeTrainOnsets.take 10) =
      (0, spikeTrainOnsets.take 12) := by
  decide!

theorem spikeTrain_stretch9 :
    onsetLoopFromOn spikeTrainEnergyAt 1024 10 576 64 (0, spikeTrainOnsets.take 12) =
      (0, spikeTrainOnsets.take 13) := by
  decide!

theorem spikeTrain_stretch10 :
    onsetLoopFromOn spikeTrainEnergyAt 1024 10 640 64 (0, spikeTrainOnsets.take 13) =
      (0, spikeTrainOnsets.take 14) := by
  decide!

theorem spikeTrain_stretch11 :
    onsetLoopFromOn spikeTrainEnergyAt 1024 10 704 64 (0, spikeTrainOnsets.take 14) =
      (0, spikeTrainOnsets.take 15) := by
  decide!

theorem spikeTrain_stretch12 :
    onsetLoopFromOn spikeTrainEnergyAt 1024 10 768 64 (0, spikeTrainOnsets.take 15) =
      (0, spikeTrainOnsets.take 17) := by
  decide!

theorem spikeTrain_stretch13 :
    onsetLoopFromOn spikeTrainEnergyAt 1024 10 832 64 (0, spikeTrainOnsets.take 17) =
      (0, spikeTrainOnsets.take 18) := by
  decide!

theorem spikeTrain_stretch14 :
    onsetLoopFromOn spikeTrainEnergyAt 1024 10 896 64 (0, spikeTrainOnsets.take 18) =
      (0, spikeTrainOnsets.take 19) := by
  decide!

theorem spikeTrain_stretch15 :
    onsetLoopFromOn spikeTrainEnergyAt 1024 10 960 64 (0, spikeTrainOnsets.take 19) =
      (0, spikeTrainOnsets.take 20) := by
  decide!

theorem spikeTrain_detectOnsets : detectOnsets spikeTrainEnergies 10 = spikeTrainOnsets := by
  have hlen : spikeTrainEnergies.length = 1024 := by simp [spikeTrainEnergies]
  unfold detectOnsets
  rw [hlen]
  have h0 : onsetLoopState spikeTrainEnergies 10 0 = (1, spikeTrainOnsets.take 0) := by
    decide!
  have h1 := onsetLoopState_stretch spikeTrainEnergies 10 0 64 64 _ _ rfl h0
    ((onsetLoopFrom_map_range spikeTrainEnergyAt 1024 10 0 64 _ (by decide)).trans
      spikeTrain_stretch0)
  have h2 := onsetLoopState_stretch spikeTrainEnergies 10 64 64 128 _ _ rfl h1
    ((onsetLoopFrom_map_range spikeTrainEnergyAt 1024 10 64 64 _ (by decide)).trans
      spikeTrain_stretch1)
  have h3 := onsetLoopState_stretch spikeTrainEnergies 10 128 64 192 _ _ rfl h2
    ((onsetLoopFrom_map_range spikeTrainEnergyAt 1024 10 128 64 _ (by decide)).trans
      spikeTrain_stretch2)
  have h4 := onsetLoopState_stretch spikeTrainEnergies 10 192 64 256 _ _ rfl h3
    ((onsetLoopFrom_map_range spikeTrainEnergyAt 1024 10 192 64 _ (by decide)).trans
      spikeTrain_stretch3)
  have h5 := onsetLoopState_stretch spikeTrainEnergies 10 256 64 320 _ _ rfl h4
    ((onsetLoopFrom_map_range spikeTrainEnergyAt 1024 10 256 64 _ (by decide)).trans
      spikeTrain_stretch4)
  have h6 := onsetLoopState_stretch spikeTrainEnergies 10 320 64 384 _ _ rfl h5
    ((onsetLoopFrom_map_range spikeTrainEnergyAt 1024 10 320 64 _ (by decide)).trans
      spikeTrain_stretch5)
  have h7 := onsetLoopState_stretch spikeTrainEnergies 10 384 64 448 _ _ rfl h6
    ((onsetLoopFrom_map_range spikeTrainEnergyAt 1024 10 384 64 _ (by decide)).trans
      spikeTrain_stretch6)
  have h8 := onsetLoopState_stretch spikeTrainEnergies 10 448 64 512 _ _ rfl h7
    ((onsetLoopFrom_map_range spikeTrainEnergyAt 1024 10 448 64 _ (by decide)).trans
      spikeTrain_stretch7)
  have h9 := onsetLoopState_stretch spikeTrainEnergies 10 512 64 576 _ _ rfl h8
    ((onsetLoopFrom_map_range spikeTrainEnergyAt 1024 10 512 64 _ (by decide)).trans
      spikeTrain_stretch8)
  have h10 := onsetLoopState_stretch spikeTrainEnergies 10 576 64 640 _ _ rfl h9
    ((onsetLoopFrom_map_range spikeTrainEnergyAt 1024 10 576 64 _ (by decide)).trans
      spikeTrain_stretch9)
  have h11 := onsetLoopState_stretch spikeTrainEnergies 10 640 64 704 _ _ rfl h10
    ((onsetLoopFrom_map_range spikeTrainEnergyAt 1024 10 640 64 _ (by decide)).trans
      spikeTrain_stretch10)
  have h12 := onsetLoopState_stretch spikeTrainEnergies 10 704 64 768 _ _ rfl h11
    ((onsetLoopFrom_map_range spikeTrainEnergyAt 1024 10 704 64 _ (by decide)).trans
      spikeTrain_stretch11)
  have h13 := onsetLoopState_stretch spikeTrainEnergies 10 768 64 832 _ _ rfl h12
    ((onsetLoopFrom_map_range spikeTrainEnergyAt 1024 10 768 64 _ (by decide)).trans
      spikeTrain_stretch12)
  have h14 := onsetLoopState_stretch spikeTrainEnergies 10 832 64 896 _ _ rfl h13
    ((onsetLoopFrom_map_range spikeTrainEnergyAt 1024 10 832 64 _ (by decide)).trans
      spikeTrain_stretch13)
  have h15 := onsetLoopState_stretch spikeTrainEnergies 10 896 64 960 _ _ rfl h14
    ((onsetLoopFrom_map_range spikeTrainEnergyAt 1024 10 896 64 _ (by decide)).trans
      spikeTrain_stretch14)
  have h16 := onsetLoopState_stretch spikeTrainEnergies 10 960 64 1024 _ _ rfl h15
    ((onsetLoopFrom_map_range spikeTrainEnergyAt 1024 10 960 64 _ (by decide)).trans
      spikeTrain_stretch15)
  rw [h16]
  rfl

/-! ## C4 -/

theorem analysisDuration_analysis (fftMag : List ℚ → List ℚ) (e : Engine) :
    analysisDuration (performFullWaveformAnalysis fftMag e) = analysisDuration e := by
  unfold analysisDuration
  rw [analysis_audioBuffer, analysis_sampleRate]

theorem twoClicks_acceptedOnsets (fftMag : List ℚ → List ℚ) :
    acceptedOnsets (performFullWaveformAnalysis fftMag twoClicksEngine) = twoClicksOnsets := by
  rw [acceptedOnsets_analysis fftMag twoClicksEngine (by decide)
    (by simp [twoClicksEngine, engineWithBuffer]), twoClicks_energies]
  have hdur : analysisDuration twoClicksEngine = 2048 := by
    decide!
  rw [hdur]
  exact twoClicks_detectOnsets

/-- C4, counterexample: on the 2048 s recording with clicks at 0 s and 1024 s the
two onsets are 1024 s apart, the raw tempo `60 / 1024` is below the `0.1` floor of
the doubling loop, and the stored BPM is `15/256`: neither 0 nor in `[70, 180)`. -/
theorem bpm_outside_range :
    (performBeatDetection
        (performFullWaveformAnalysis flatSpectrum twoClicksEngine)).detectedBPM = 15 / 256 ∧
      ¬ ((performBeatDetection
            (performFullWaveformAnalysis flatSpectrum twoClicksEngine)).detectedBPM = 0 ∨
          (70 ≤ (performBeatDetection
              (performFullWaveformAnalysis flatSpectrum twoClicksEngine)).detectedBPM ∧
            (performBeatDetection
              (performFullWaveformAnalysis flatSpectrum twoClicksEngine)).detectedBPM < 180)) := by
  have hbpm : (performBeatDetection
      (performFullWaveformAnalysis flatSpectrum twoClicksEngine)).detectedBPM = 15 / 256 := by
    rw [bpm_eq, twoClicks_acceptedOnsets]
    decide!
  rw [hbpm]
  norm_num

/-- A raw tempo of exactly 180 would be left as it is, since the halving loop tests
`> 180`; no interval between two timestamps produces it (`foldOctave_ne_180`). -/
theorem foldOctave_180 : foldOctave 180 = 180 := by
  decide!

/-! ## C5 -/

theorem beatDetection_overview (e : Engine) :
    (performBeatDetection e).overviewWaveformPoints = e.overviewWaveformPoints := by
  unfold performBeatDetection
  dsimp only
  split
  · rfl
  · split
    · rfl
    · split
      · rfl
      · split <;> rfl

theorem beatDetection_fftInvocations (e : Engine) :
    (performBeatDetection e).fftInvocations = e.fftInvocations := by
  unfold performBeatDetection
  dsimp only
  split
  · rfl
  · split
    · rfl
    · split
      · rfl
      · split <;> rfl

/-- C5, counterexample: with the negative sample rate `-44100` the entry guard
(`currentSampleRate == 0.0`) does not fire: four samples yield four overview
segments and four runs of the transform. -/
theorem negative_rate_is_analysed :
    (analyze flatSpectrum negativeRateEngine).overviewWaveformPoints.length = 4 ∧
      (analyze flatSpectrum negativeRateEngine).fftInvocations = 4 := by
  unfold analyze
  rw [beatDetection_overview, beatDetection_fftInvocations]
  decide!

/-- C5, amended: when the buffer has no samples or the sample rate is exactly zero,
the analysis leaves zero overview segments, an empty onset list and BPM 0, and the
transform is not run. -/
theorem degenerate_input_yields_nothing (fftMag : List ℚ → List ℚ) (e : Engine)
    (h : e.audioBuffer.numSamples = 0 ∨ e.currentSampleRate = 0) :
    (analyze fftMag e).overviewWaveformPoints = [] ∧
      (analyze fftMag e).detectedBeatTimestamps = [] ∧
      (analyze fftMag e).detectedBPM = 0 ∧
      (analyze fftMag e).fftInvocations = e.fftInvocations := by
  have hpass : performFullWaveformAnalysis fftMag e = { e with overviewWaveformPoints := [] } := by
    unfold performFullWaveformAnalysis
    dsimp only
    rw [if_pos h]
  unfold analyze
  rw [hpass]
  unfold performBeatDetection
  dsimp only
  rw [if_pos h]
  exact ⟨rfl, rfl, rfl, rfl⟩

/-- The engine `emptiedEngine` holds stale results and an empty buffer; after the
analysis the results are gone and the transform counter is unchanged. -/
theorem degenerate_input_yields_nothing_witness :
    (analyze flatSpectrum emptiedEngine).overviewWaveformPoints = [] ∧
      (analyze flatSpectrum emptiedEngine).detectedBeatTimestamps = [] ∧
      (analyze flatSpectrum emptiedEngine).detectedBPM = 0 ∧
      (analyze flatSpectrum emptiedEngine).fftInvocations = 1 :=
  degenerate_input_yields_nothing flatSpectrum emptiedEngine (Or.inl rfl)

/-! ## C6 -/

/-- C6: when fewer than two onsets are accepted, `performBeatDetection` stores
BPM 0 and the onset list is exactly the accepted onsets (none or one), not cleared. -/
theorem few_onsets_bpm_zero (e : Engine) (h : (acceptedOnsets e).length < 2) :
    (performBeatDetection e).detectedBPM = 0 ∧
      (performBeatDetection e).detectedBeatTimestamps = acceptedOnsets e ∧
      ((performBeatDetection e).detectedBeatTimestamps.length = 0 ∨
        (performBeatDetection e).detectedBeatTimestamps.length = 1) := by
  rw [bpm_eq, beats_eq_acceptedOnsets, if_pos h]
  refine ⟨rfl, rfl, ?_⟩
  omega

/-- On `loudThenSilentEngine` only the first segment is accepted as an onset (at
0 s): the BPM is 0 and the single onset is kept. -/
theorem few_onsets_bpm_zero_witness :
    (performBeatDetection loudThenSilentEngine).detectedBPM = 0 ∧
      (performBeatDetection loudThenSilentEngine).detectedBeatTimestamps = [0] ∧
      ((performBeatDetection loudThenSilentEngine).detectedBeatTimestamps.length = 0 ∨
        (performBeatDetection loudThenSilentEngine).detectedBeatTimestamps.length = 1) :=
  have hacc : acceptedOnsets loudThenSilentEngine = [0] := by decide!
  hacc ▸ few_onsets_bpm_zero loudThenSilentEngine (by rw [hacc]; decide)

/-! ## The bin loop -/

theorem bandLoopFrom_add (sampleRate : ℚ) (mags : List ℚ) (first m n : Nat) (acc : BandEnergy) :
    bandLoopFrom sampleRate mags first (m + n) acc =
      bandLoopFrom sampleRate mags (first + m) n (bandLoopFrom sampleRate mags first m acc) := by
  unfold bandLoopFrom
  rw [← List.foldl_append, List.range'_append_1, Nat.add_comm n m]

/-- The `float` nearest to `0.0001`. -/
theorem toFloat_epsilon : toFloat (1 / 10000) = 13743895 / 137438953472 := by
  decide!

/-- The `float` nearest to `0.05`. -/
theorem toFloat_energyFloor : toFloat (1 / 20) = ENERGY_FLOOR := by
  decide!

theorem bandEnergies_eq_bandLoopFrom (sampleRate : ℚ) (mags : List ℚ) :
    bandEnergies sampleRate mags =
      bandLoopFrom sampleRate mags 0 513
        { low := 0, mid := 0, high := 0, total := 13743895 / 137438953472 } := by
  unfold bandEnergies bandLoopFrom
  rw [List.range_eq_range', toFloat_epsilon]
  rfl

theorem bandLoopFrom_stretch (sampleRate : ℚ) (mags : List ℚ) (m n last : Nat)
    (acc acc2 acc3 : BandEnergy) (hlast : m + n = last)
    (hfirst : bandLoopFrom sampleRate mags 0 m acc = acc2)
    (hrun : bandLoopFrom sampleRate mags m n acc2 = acc3) :
    bandLoopFrom sampleRate mags 0 last acc = acc3 := by
  rw [← hlast, bandLoopFrom_add, hfirst, Nat.zero_add, hrun]

theorem bandLoopFrom_eq_on (sampleRate : ℚ) (mags : List ℚ) (magnitudeAt : Nat → ℚ)
    (first count : Nat) (acc : BandEnergy)
    (h : ∀ k, first ≤ k → k < first + count → mags.getD k 0 = magnitudeAt k) :
    bandLoopFrom sampleRate mags first count acc =
      bandLoopFromOn sampleRate magnitudeAt first count acc := by
  unfold bandLoopFrom bandLoopFromOn
  induction count generalizing first acc with
  | zero => rfl
  | succ n ih =>
    rw [List.range'_succ, List.foldl_cons, List.foldl_cons]
    have hstep : bandStep sampleRate mags acc first =
        bandStepOn sampleRate magnitudeAt acc first := by
      unfold bandStep bandStepOn
      rw [h first (le_refl _) (by omega)]
    rw [hstep]
    exact ih (first + 1) _ (fun k h1 h2 => h k (by omega) (by omega))

theorem replicate_getD_one (n k : Nat) (hk : k < n) :
    (List.replicate n (1 : ℚ)).getD k 0 = 1 := by
  rw [List.getD_eq_getElem?_getD, List.getElem?_replicate, if_pos hk]
  rfl

/-! ### A flat unit spectrum at 44100 Hz

Bins 0 to 4 are low (up to 200 Hz), bins 5 to 46 are mid (up to 2000 Hz) and
the bins from 47 on are high. -/

theorem flatBins_stretch0 :
    bandLoopFromOn 44100 (fun _ => 1) 0 64
        { low := 0, mid := 0, high := 0, total := 13743895 / 137438953472 } =
      { low := 5, mid := 42, high := 17, total := 8388621 / 131072 } := by
  decide!

theorem flatBins_stretch1 :
    bandLoopFromOn 44100 (fun _ => 1) 64 64
        { low := 5, mid := 42, high := 17, total := 8388621 / 131072 } =
      { low := 5, mid := 42, high := 81, total := 4194307 / 32768 } := by
  decide!

theorem flatBins_stretch2 :
    bandLoopFromOn 44100 (fun _ => 1) 128 64
        { low := 5, mid := 42, high := 81, total := 4194307 / 32768 } =
      { low := 5, mid := 42, high := 145, total := 6291459 / 32768 } := by
  decide!

theorem flatBins_stretch3 :
    bandLoopFromOn 44100 (fun _ => 1) 192 64
        { low := 5, mid := 42, high := 145, total := 6291459 / 32768 } =
      { low := 5, mid := 42, high := 209, total := 8388611 / 32768 } := by
  decide!

theorem flatBins_stretch4 :
    bandLoopFromOn 44100 (fun _ => 1) 256 64
        { low := 5, mid := 42, high := 209, total := 8388611 / 32768 } =
      { low := 5, mid := 42, high := 273, total := 10485763 / 32768 } := by
  decide!

theorem flatBins_stretch5 :
    bandLoopFromOn 44100 (fun _ => 1) 320 64
        { low := 5, mid := 42, high := 273, total := 10485763 / 32768 } =
      { low := 5, mid := 42, high := 337, total := 12582915 / 32768 } := by
  decide!

theorem flatBins_stretch6 :
    bandLoopFromOn 44100 (fun _ => 1) 384 64
        { low := 5, mid := 42, high := 337, total := 12582915 / 32768 } =
      { low := 5, mid := 42, high := 401, total := 14680067 / 32768 } := by
  decide!

theorem flatBins_stretch7 :
    bandLoopFromOn 44100 (fun _ => 1) 448 64
        { low := 5, mid := 42, high := 401, total := 14680067 / 32768 } =
      { low := 5, mid := 42, high := 465, total := 4194305 / 8192 } := by
  decide!

theorem flatBins_stretch8 :
    bandLoopFromOn 44100 (fun _ => 1) 512 1
        { low := 5, mid := 42, high := 465, total := 4194305 / 8192 } =
      { low := 5, mid := 42, high := 466, total := 4202497 / 8192 } := by
  decide!

theorem flatBins_energies :
    bandEnergies 44100 (List.replicate 513 1) =
      { low := 5, mid := 42, high := 466, total := 4202497 / 8192 } := by
  rw [bandEnergies_eq_bandLoopFrom]
  have h0 : bandLoopFrom 44100 (List.replicate 513 1) 0 0
      { low := 0, mid := 0, high := 0, total := 13743895 / 137438953472 } =
      { low := 0, mid := 0, high := 0, total := 13743895 / 137438953472 } := rfl
  have h1 := bandLoopFrom_stretch 44100 (List.replicate 513 1) 0 64 64 _ _ _ rfl h0
    ((bandLoopFrom_eq_on 44100 (List.replicate 513 1) (fun _ => 1) 0 64 _
      (fun k _ hk => replicate_getD_one 513 k (by omega))).trans flatBins_stretch0)
  have h2 := bandLoopFrom_stretch 44100 (List.replicate 513 1) 64 64 128 _ _ _ rfl h1
    ((bandLoopFrom_eq_on 44100 (List.replicate 513 1) (fun _ => 1) 64 64 _
      (fun k _ hk => replicate_getD_one 513 k (by omega))).trans flatBins_stretch1)
  have h3 := bandLoopFrom_stretch 44100 (List.replicate 513 1) 128 64 192 _ _ _ rfl h2
    ((bandLoopFrom_eq_on 44100 (List.replicate 513 1) (fun _ => 1) 128 64 _
      (fun k _ hk => replicate_getD_one 513 k (by omega))).trans flatBins_stretch2)
  have h4 := bandLoopFrom_stretch 44100 (List.replicate 513 1) 192 64 256 _ _ _ rfl h3
    ((bandLoopFrom_eq_on 44100 (List.replicate 513 1) (fun _ => 1) 192 64 _
      (fun k _ hk => replicate_getD_one 513 k (by omega))).trans flatBins_stretch3)
  have h5 := bandLoopFrom_stretch 44100 (List.replicate 513 1) 256 64 320 _ _ _ rfl h4
    ((bandLoopFrom_eq_on 44100 (List.replicate 513 1) (fun _ => 1) 256 64 _
      (fun k _ hk => replicate_getD_one 513 k (by omega))).trans flatBins_stretch4)
  have h6 := bandLoopFrom_stretch 44100 (List.replicate 513 1) 320 64 384 _ _ _ rfl h5
    ((bandLoopFrom_eq_on 44100 (List.replicate 513 1) (fun _ => 1) 320 64 _
      (fun k _ hk => replicate_getD_one 513 k (by omega))).trans flatBins_stretch5)
  have h7 := bandLoopFrom_stretch 44100 (List.replicate 513 1) 384 64 448 _ _ _ rfl h6
    ((bandLoopFrom_eq_on 44100 (List.replicate 513 1) (fun _ => 1) 384 64 _
      (fun k _ hk => replicate_getD_one 513 k (by omega))).trans flatBins_stretch6)
  have h8 := bandLoopFrom_stretch 44100 (List.replicate 513 1) 448 64 512 _ _ _ rfl h7
    ((bandLoopFrom_eq_on 44100 (List.replicate 513 1) (fun _ => 1) 448 64 _
      (fun k _ hk => replicate_getD_one 513 k (by omega))).trans flatBins_stretch7)
  have h9 := bandLoopFrom_stretch 44100 (List.replicate 513 1) 512 1 513 _ _ _ rfl h8
    ((bandLoopFrom_eq_on 44100 (List.replicate 513 1) (fun _ => 1) 512 1 _
      (fun k _ hk => replicate_getD_one 513 k (by omega))).trans flatBins_stretch8)
  exact h9

/-! ## C7 -/

theorem fftStart_lt_total (total i : Nat) (h : startSample total i < total) :
    fftStartSample (startSample total i) (endSample total i) < total := by
  have hlt := startSample_lt_endSample total i h
  have hend : endSample total i ≤ total := by
    unfold endSample
    split <;> omega
  unfold fftStartSample
  omega

/-- The transform runs for every pushed segment. -/
theorem fftInvoked_of_lt (total i : Nat) (h : startSample total i < total) :
    fftInvoked total i = true := by
  have hlt := fftStart_lt_total total i h
  unfold fftInvoked samplesToCopyForFFT
  simp only [decide_eq_true_eq]
  split
  · omega
  · unfold FFT_SIZE FFT_ORDER
    norm_num

theorem fftWindow_silent (x : Nat → ℚ) (total fftStart : Nat)
    (h : ∀ k, k < FFT_SIZE → fftStart + k < total → x (fftStart + k) = 0) :
    fftWindow x total fftStart = List.replicate FFT_SIZE 0 := by
  unfold fftWindow
  rw [List.eq_replicate_iff]
  refine ⟨by simp, ?_⟩
  intro v hv
  rw [List.mem_map] at hv
  obtain ⟨k, hk, hkv⟩ := hv
  rw [List.mem_range] at hk
  rw [← hkv]
  split
  · rename_i hlt
    exact h k hk hlt
  · rfl

theorem toFloat_zero : toFloat 0 = 0 := by
  unfold toFloat roundToBits
  rw [if_pos Rat.num_zero]

/-- A bin of magnitude zero leaves the initial accumulators as they are. -/
theorem bandStep_silent (sampleRate : ℚ) (mags : List ℚ) (k : Nat)
    (h : mags.getD k 0 = 0) :
    bandStep sampleRate mags
        { low := 0, mid := 0, high := 0, total := 13743895 / 137438953472 } k =
      { low := 0, mid := 0, high := 0, total := 13743895 / 137438953472 } := by
  have htotal : toFloat ((13743895 : ℚ) / 137438953472) = 13743895 / 137438953472 := by
    decide!
  unfold bandStep
  dsimp only
  rw [h]
  simp only [add_zero, toFloat_zero, htotal]
  split
  · rfl
  · split <;> rfl

theorem bandEnergies_silent (sampleRate : ℚ) (mags : List ℚ)
    (h : ∀ k, k < FFT_SIZE / 2 + 1 → mags.getD k 0 = 0) :
    bandEnergies sampleRate mags =
      { low := 0, mid := 0, high := 0, total := 13743895 / 137438953472 } := by
  unfold bandEnergies
  rw [toFloat_epsilon]
  generalize FFT_SIZE / 2 + 1 = n at h
  induction n with
  | zero => rfl
  | succ n ih =>
    rw [List.range_succ, List.foldl_append, ih (fun k hk => h k (by omega))]
    exact bandStep_silent sampleRate mags n (h n (by omega))

theorem bandColor_silent :
    bandColor { low := 0, mid := 0, high := 0, total := 13743895 / 137438953472 } =
      (0, 0, 0) := by
  decide!

theorem analysePoint_color (fftMag : List ℚ → List ℚ) (buf : AudioBuffer) (sampleRate : ℚ)
    (i : Nat) :
    ((analysePoint fftMag buf sampleRate i).r, (analysePoint fftMag buf sampleRate i).g,
        (analysePoint fftMag buf sampleRate i).b) =
      ((segmentColor fftMag buf sampleRate i).1, (segmentColor fftMag buf sampleRate i).2.1,
        (segmentColor fftMag buf sampleRate i).2.2) := by
  unfold analysePoint
  dsimp only

/-- The colour of a pushed segment whose transform window holds no non-zero sample. -/
theorem segmentColor_silent (fftMag : List ℚ → List ℚ) (buf : AudioBuffer) (sampleRate : ℚ)
    (i : Nat) (hi : startSample buf.numSamples i < buf.numSamples)
    (hwindow : ∀ k, k < FFT_SIZE →
      fftStartSample (startSample buf.numSamples i) (endSample buf.numSamples i) + k <
        buf.numSamples →
      buf.channel0
        (fftStartSample (startSample buf.numSamples i) (endSample buf.numSamples i) + k) = 0)
    (hfft : ∀ k, k < FFT_SIZE / 2 + 1 → (fftMag (List.replicate FFT_SIZE 0)).getD k 0 = 0) :
    segmentColor fftMag buf sampleRate i = (0, 0, 0) := by
  unfold segmentColor
  dsimp only
  rw [fftInvoked_of_lt _ _ hi, if_pos rfl, fftWindow_silent _ _ _ hwindow,
    bandEnergies_silent _ _ hfft, bandColor_silent]

theorem flatSpectrum_silent (k : Nat) :
    (flatSpectrum (List.replicate FFT_SIZE 0)).getD k 0 = 0 := by
  unfold flatSpectrum
  simp only [List.map_replicate, abs_zero, List.sum_replicate, smul_zero]
  rw [List.getD_eq_getElem?_getD, List.getElem?_replicate]
  split <;> rfl

theorem centreImpulse_spectrum :
    flatSpectrum (fftWindow centreImpulse 1024 0) = List.replicate 513 1 := by
  decide!

/-- C7, counterexample: in the buffer of 1024 samples with a single unit impulse at
sample 512, segment 0 covers only sample 0, which is zero, and gets the envelope
`(0, 0)`; its transform window is the whole buffer and holds the impulse, and with
a flat spectrum for that impulse the colour is `(7, 62, 255)`, not `(0, 0, 0)`. -/
theorem silent_range_coloured :
    (∀ s, 0 * max 1 (1024 / 1024) ≤ s → s < min ((0 + 1) * max 1 (1024 / 1024)) 1024 →
        centreImpulse s = 0) ∧
      ((performFullWaveformAnalysis flatSpectrum centreImpulseEngine).overviewWaveformPoints[0]?
        = some { minValue := 0, maxValue := 0, r := 7, g := 62, b := 255 }) := by
  constructor
  · intro s _ hs
    have : s = 0 := by
      norm_num at hs
      omega
    subst this
    rfl
  · rw [overview_eq_map flatSpectrum centreImpulseEngine (by decide)
      (by simp [centreImpulseEngine, engineWithBuffer]), List.getElem?_map,
      List.getElem?_range (by decide)]
    have hcol : segmentColor flatSpectrum centreImpulseEngine.audioBuffer
        centreImpulseEngine.currentSampleRate 0 = (7, 62, 255) := by
      unfold segmentColor
      dsimp only
      rw [fftInvoked_of_lt _ _ (by decide), if_pos rfl]
      have hstart : fftStartSample (startSample centreImpulseEngine.audioBuffer.numSamples 0)
          (endSample centreImpulseEngine.audioBuffer.numSamples 0) = 0 := by decide
      rw [hstart]
      show bandColor (bandEnergies 44100 (flatSpectrum (fftWindow centreImpulse 1024 0))) = _
      rw [centreImpulse_spectrum, flatBins_energies]
      decide!
    have henv : envelope centreImpulseEngine.audioBuffer.channel0
        (startSample centreImpulseEngine.audioBuffer.numSamples 0)
        (endSample centreImpulseEngine.audioBuffer.numSamples 0) = (0, 0) := by decide!
    simp only [Option.map_some', analysePoint, hcol, henv]

/-- C7, amended: a produced segment whose own sample range
`[i * W, min((i + 1) * W, N))` holds only zero samples has the envelope `(0, 0)`; its
colour is `(0, 0, 0)` when moreover every buffer sample inside its transform window
(the `FFT_SIZE` samples from `fftStart = max(0, centre - FFT_SIZE / 2)`) is zero, the
transform mapping the silent window to zero magnitudes. -/
theorem silent_segment (fftMag : List ℚ → List ℚ) (e : Engine) (i : Nat)
    (point : WaveformPoint)
    (hpoint : (performFullWaveformAnalysis fftMag e).overviewWaveformPoints[i]? = some point)
    (hrange : ∀ s, i * max 1 (e.audioBuffer.numSamples / 1024) ≤ s →
      s < min ((i + 1) * max 1 (e.audioBuffer.numSamples / 1024)) e.audioBuffer.numSamples →
      e.audioBuffer.channel0 s = 0) :
    (point.minValue = 0 ∧ point.maxValue = 0) ∧
      ((∀ k, k < FFT_SIZE →
          (i * max 1 (e.audioBuffer.numSamples / 1024) +
            (min ((i + 1) * max 1 (e.audioBuffer.numSamples / 1024)) e.audioBuffer.numSamples
              - i * max 1 (e.audioBuffer.numSamples / 1024)) / 2 - FFT_SIZE / 2) + k <
            e.audioBuffer.numSamples →
          e.audioBuffer.channel0
            ((i * max 1 (e.audioBuffer.numSamples / 1024) +
              (min ((i + 1) * max 1 (e.audioBuffer.numSamples / 1024)) e.audioBuffer.numSamples
                - i * max 1 (e.audioBuffer.numSamples / 1024)) / 2 - FFT_SIZE / 2) + k) = 0) →
        (∀ k, k < FFT_SIZE / 2 + 1 → (fftMag (List.replicate FFT_SIZE 0)).getD k 0 = 0) →
        (point.r, point.g, point.b) = (0, 0, 0)) := by
  by_cases hguard : e.audioBuffer.numSamples = 0 ∨ e.currentSampleRate = 0
  · simp [performFullWaveformAnalysis, hguard] at hpoint
  · push_neg at hguard
    rw [overview_eq_map fftMag e hguard.1 hguard.2, List.getElem?_map] at hpoint
    have hi : i < segmentCount e.audioBuffer.numSamples := by
      by_contra hge
      rw [List.getElem?_eq_none (by simpa using hge)] at hpoint
      simp at hpoint
    rw [List.getElem?_range hi] at hpoint
    simp only [Option.map_some', Option.some.injEq] at hpoint
    have hstart := lt_segmentCount _ _ hi
    have henv := envelope_spec e.audioBuffer.channel0 _ _
      (startSample_lt_endSample _ _ hstart)
    subst hpoint
    constructor
    · rw [analysePoint_minValue, analysePoint_maxValue]
      rw [startSample_eq, endSample_eq_min] at henv ⊢
      obtain ⟨⟨⟨s1, a1, b1, c1⟩, _⟩, ⟨⟨s2, a2, b2, c2⟩, _⟩⟩ := henv
      exact ⟨by rw [← c1, hrange s1 a1 b1], by rw [← c2, hrange s2 a2 b2]⟩
    · intro hwindow hfft
      have hcol := segmentColor_silent fftMag e.audioBuffer e.currentSampleRate i hstart
        (by
          unfold fftStartSample
          rw [startSample_eq, endSample_eq_min]
          exact hwindow) hfft
      rw [analysePoint_color, hcol]

/-- Segment 2 of four silent samples at 44100 Hz: envelope `(0, 0)` and colour
`(0, 0, 0)` (the transform window holds the four samples, all zero). -/
theorem silent_segment_witness :
    ((analysePoint flatSpectrum silentEngine.audioBuffer 44100 2).minValue = 0 ∧
        (analysePoint flatSpectrum silentEngine.audioBuffer 44100 2).maxValue = 0) ∧
      ((analysePoint flatSpectrum silentEngine.audioBuffer 44100 2).r,
        (analysePoint flatSpectrum silentEngine.audioBuffer 44100 2).g,
        (analysePoint flatSpectrum silentEngine.audioBuffer 44100 2).b) = (0, 0, 0) :=
  have h := silent_segment flatSpectrum silentEngine 2
    (analysePoint flatSpectrum silentEngine.audioBuffer 44100 2)
    (by
      rw [overview_eq_map flatSpectrum _ (by decide) (by simp [silentEngine, engineWithBuffer]),
        List.getElem?_map, List.getElem?_range (by decide)]
      rfl)
    (fun _ _ _ => rfl)
  ⟨h.1, h.2 (fun _ _ _ => rfl) (fun k _ => flatSpectrum_silent k)⟩

/-! ## C8 -/

/-- C8, failing input: `loadedEngine` holds the results of an earlier file.  A load
that fails (file missing, no playback reader, no analysis reader) returns `false`
and leaves the earlier overview, onsets and BPM in place. -/
theorem failed_load_keeps_results :
    ((loadFile flatSpectrum FileAccess.missing loadedEngine).2 = false ∧
        (loadFile flatSpectrum FileAccess.missing loadedEngine).1.overviewWaveformPoints =
          [stalePoint] ∧
        (loadFile flatSpectrum FileAccess.missing loadedEngine).1.detectedBeatTimestamps =
          [1 / 2, 1] ∧
        (loadFile flatSpectrum FileAccess.missing loadedEngine).1.detectedBPM = 120) ∧
      ((loadFile flatSpectrum FileAccess.noPlaybackReader loadedEngine).2 = false ∧
        (loadFile flatSpectrum FileAccess.noPlaybackReader
          loadedEngine).1.overviewWaveformPoints = [stalePoint] ∧
        (loadFile flatSpectrum FileAccess.noPlaybackReader
          loadedEngine).1.detectedBPM = 120) ∧
      ((loadFile flatSpectrum
          (FileAccess.noAnalysisReader
            { sampleRate := 48000, lengthInSamples := 96000, numChannels := 2 })
          loadedEngine).2 = false ∧
        (loadFile flatSpectrum
          (FileAccess.noAnalysisReader
            { sampleRate := 48000, lengthInSamples := 96000, numChannels := 2 })
          loadedEngine).1.overviewWaveformPoints = [stalePoint] ∧
        (loadFile flatSpectrum
          (FileAccess.noAnalysisReader
            { sampleRate := 48000, lengthInSamples := 96000, numChannels := 2 })
          loadedEngine).1.detectedBPM = 120 ∧
        (loadFile flatSpectrum
          (FileAccess.noAnalysisReader
            { sampleRate := 48000, lengthInSamples := 96000, numChannels := 2 })
          loadedEngine).1.currentSampleRate = 48000) :=
  ⟨⟨rfl, rfl, rfl, rfl⟩, ⟨rfl, rfl, rfl⟩, ⟨rfl, rfl, rfl, rfl⟩⟩

/-- A failed load never touches the analysis results, whatever the engine holds. -/
theorem failed_load_results_unchanged (fftMag : List ℚ → List ℚ) (e : Engine)
    (playback : ReaderInfo) :
    (∀ file, file = FileAccess.missing ∨ file = FileAccess.noPlaybackReader ∨
        file = FileAccess.noAnalysisReader playback →
      (loadFile fftMag file e).2 = false ∧
        (loadFile fftMag file e).1.overviewWaveformPoints = e.overviewWaveformPoints ∧
        (loadFile fftMag file e).1.detectedBeatTimestamps = e.detectedBeatTimestamps ∧
        (loadFile fftMag file e).1.detectedBPM = e.detectedBPM) := by
  intro file hfile
  rcases hfile with h | h | h <;> subst h <;> exact ⟨rfl, rfl, rfl, rfl⟩

/-- A degenerate load (no samples or no channels) does reset the analysis results. -/
theorem degenerate_load_resets (fftMag : List ℚ → List ℚ) (e : Engine)
    (playback analysis : ReaderInfo) (channel0 : Nat → ℚ)
    (h : ¬ (analysis.lengthInSamples > 0 ∧ analysis.numChannels > 0)) :
    (loadFile fftMag (FileAccess.opened playback analysis channel0) e).2 = true ∧
      (loadFile fftMag (FileAccess.opened playback analysis channel0)
        e).1.overviewWaveformPoints = [] ∧
      (loadFile fftMag (FileAccess.opened playback analysis channel0)
        e).1.detectedBeatTimestamps = [] ∧
      (loadFile fftMag (FileAccess.opened playback analysis channel0) e).1.detectedBPM = 0 := by
  unfold loadFile
  dsimp only
  rw [if_neg h]
  exact ⟨rfl, rfl, rfl, rfl⟩

/-! ## C9 -/

theorem spikeTrain_acceptedOnsets (fftMag : List ℚ → List ℚ) :
    acceptedOnsets (performFullWaveformAnalysis fftMag spikeTrainEngine) = spikeTrainOnsets := by
  rw [acceptedOnsets_analysis fftMag spikeTrainEngine (by decide)
    (by simp [spikeTrainEngine, engineWithBuffer]), spikeTrain_energies]
  have hdur : analysisDuration spikeTrainEngine = 10 := by
    decide!
  rw [hdur]
  exact spikeTrain_detectOnsets

theorem spikeTrain_beats (fftMag : List ℚ → List ℚ) :
    (analyze fftMag spikeTrainEngine).detectedBeatTimestamps = spikeTrainOnsets := by
  unfold analyze
  rw [beats_eq_acceptedOnsets, spikeTrain_acceptedOnsets]

theorem spikeTrain_bpm (fftMag : List ℚ → List ℚ) :
    (analyze fftMag spikeTrainEngine).detectedBPM = bpmFromOnsets spikeTrainOnsets := by
  unfold analyze
  rw [bpm_eq, spikeTrain_acceptedOnsets]
  rfl

/-- C9, counterexample: on the 10 s spike train 20 onsets are accepted, and the onset
of spike 18 (segment 923, timestamp `9230/1024` s) lies `14/1024` s after its mark
at 9 s, more than one segment width `10/1024` s. -/
theorem spike_onset_off_mark :
    (analyze flatSpectrum spikeTrainEngine).detectedBeatTimestamps.length = 20 ∧
      (analyze flatSpectrum spikeTrainEngine).detectedBeatTimestamps.getD 18 0 - 1 / 2 * 18 =
        14 / 1024 ∧
      ¬ (∀ k, k < 20 →
        |(analyze flatSpectrum spikeTrainEngine).detectedBeatTimestamps.getD k 0
          - 1 / 2 * (k : ℚ)| ≤ 10 / 1024) := by
  rw [spikeTrain_beats]
  decide!

/-- C9, amended: on the buffer of 441000 samples at 44100 Hz with unit spikes at the
samples `22050 * k`, `k = 0, ..., 19`, the analysis accepts exactly one onset per
spike (the timestamp of the segment `22050 * k / 430` holding it), every onset
timestamp is within `14/1024` s (1.4 segment widths) of its mark `0.5 * k`, the
median IOI is `255/512` s, within one segment width of 0.5 s, and the BPM is
`60 / medianIOI = 2048/17`, with no doubling or halving applied. -/
theorem spike_train_scenario (fftMag : List ℚ → List ℚ) :
    (analyze fftMag spikeTrainEngine).detectedBeatTimestamps.length = 20 ∧
      (analyze fftMag spikeTrainEngine).detectedBeatTimestamps =
        (List.range 20).map (fun k => timeStamp 10 (22050 * k / 430)) ∧
      (∀ k, k < 20 →
        |(analyze fftMag spikeTrainEngine).detectedBeatTimestamps.getD k 0
          - 1 / 2 * (k : ℚ)| ≤ 14 / 1024) ∧
      medianIOI (interOnsetIntervals
        (analyze fftMag spikeTrainEngine).detectedBeatTimestamps) = 255 / 512 ∧
      |medianIOI (interOnsetIntervals
        (analyze fftMag spikeTrainEngine).detectedBeatTimestamps) - 1 / 2| ≤ 10 / 1024 ∧
      (analyze fftMag spikeTrainEngine).detectedBPM =
        60 / medianIOI (interOnsetIntervals
          (analyze fftMag spikeTrainEngine).detectedBeatTimestamps) ∧
      (analyze fftMag spikeTrainEngine).detectedBPM = 2048 / 17 := by
  rw [spikeTrain_beats, spikeTrain_bpm]
  decide!

/-! ## The local average on two energies -/

/-- For the two energies `1, 1` the local average of segment 0 is 0, not the mean 1
of the energies seen so far, and that of segment 1 is `3/2` (the running sum is 3),
not the mean 1. -/
theorem local_average_not_mean :
    localAverageAt [1, 1] 1 0 = 0 ∧ meanOfRecent [1, 1] 0 = 1 ∧
      localAverageAt [1, 1] 1 1 = 3 / 2 ∧ meanOfRecent [1, 1] 1 = 1 := by
  decide!

/-- The divisor of the local average: segment 0 is compared against 0, and for every
later segment `i` the running `energySum` is divided by `min(i + 1, H)`, `H = 10`. -/
theorem local_average_formula (energies : List ℚ) (duration : ℚ) :
    localAverageAt energies duration 0 = 0 ∧
      ∀ i, 1 ≤ i →
        localAverageAt energies duration i =
          energySumAt energies duration i / ((min (i + 1) historySize : Nat) : ℚ) := by
  refine ⟨rfl, fun i hi => ?_⟩
  unfold localAverageAt localAverageEnergy
  rw [if_pos (by omega)]
  split
  · rename_i hlt
    rw [min_eq_left (by omega)]
    push_cast
    rfl
  · rename_i hge
    rw [min_eq_right (by omega)]

/-- For the energies `1, 1` the running sum of iteration 1 is 3 and the local
average is `3 / min(2, 10)`. -/
theorem local_average_formula_witness :
    localAverageAt [1, 1] 1 1 = 3 / ((min (1 + 1) historySize : Nat) : ℚ) :=
  ((local_average_formula [1, 1] 1).2 1 (le_refl 1)).trans (by decide!)

/-! ## The three-click recording -/

theorem threeClicks_energies (fftMag : List ℚ → List ℚ) :
    energiesOf (performFullWaveformAnalysis fftMag threeClicksEngine).overviewWaveformPoints =
      threeClicksEnergies := by
  rw [energiesOf_overview fftMag threeClicksEngine (by decide) (by simp [threeClicksEngine,
    engineWithBuffer])]
  have hcount : segmentCount threeClicksEngine.audioBuffer.numSamples = 1024 := by
    rw [segmentCount_eq_min]
    rfl
  rw [hcount]
  unfold threeClicksEnergies threeClicksEnergyAt
  apply List.map_congr_left
  intro i hi
  rw [List.mem_range] at hi
  have hstart : startSample threeClicksEngine.audioBuffer.numSamples i = 430 * i := by
    rw [startSample_eq]
    show i * max 1 (441000 / 1024) = 430 * i
    norm_num
    omega
  have hend : endSample threeClicksEngine.audioBuffer.numSamples i = 430 * i + 430 := by
    rw [endSample_eq_min]
    show min ((i + 1) * max 1 (441000 / 1024)) 441000 = 430 * i + 430
    norm_num
    omega
  rw [hstart, hend]
  show (envelope threeClicks (430 * i) (430 * i + 430)).2 -
    (envelope threeClicks (430 * i) (430 * i + 430)).1 = _
  apply energy_of_clicks threeClicks _ _ (i = 0 ∨ i = 100 ∨ i = 250) (by omega)
  · intro s _ _
    unfold threeClicks
    split
    · exact Or.inr rfl
    · exact Or.inl rfl
  · refine ⟨430 * i + 1, by omega, by omega, ?_⟩
    unfold threeClicks
    rw [if_neg (by omega)]
  · constructor
    · intro hc
      refine ⟨430 * i, le_refl _, by omega, ?_⟩
      unfold threeClicks
      rw [if_pos (by omega)]
    · rintro ⟨s, a, b, c⟩
      unfold threeClicks at c
      split at c
      · omega
      · norm_num at c

theorem threeClicks_stretch0 :
    onsetLoopFromOn threeClicksEnergyAt 1024 10 0 64 (1, threeClicksOnsets.take 0) =
      (0, threeClicksOnsets.take 1) := by
  decide!

theorem threeClicks_stretch1 :
    onsetLoopFromOn threeClicksEnergyAt 1024 10 64 64 (0, threeClicksOnsets.take 1) =
      (0, threeClicksOnsets.take 2) := by
  decide!

theorem threeClicks_stretch2 :
    onsetLoopFromOn threeClicksEnergyAt 1024 10 128 64 (0, threeClicksOnsets.take 2) =
      (0, threeClicksOnsets.take 2) := by
  decide!

theorem threeClicks_stretch3 :
    onsetLoopFromOn threeClicksEnergyAt 1024 10 192 64 (0, threeClicksOnsets.take 2) =
      (1, threeClicksOnsets.take 3) := by
  decide!

theorem threeClicks_stretch4 :
    onsetLoopFromOn threeClicksEnergyAt 1024 10 256 64 (1, threeClicksOnsets.take 3) =
      (0, threeClicksOnsets.take 3) := by
  decide!

theorem threeClicks_stretch5 :
    onsetLoopFromOn threeClicksEnergyAt 1024 10 320 64 (0, threeClicksOnsets.take 3) =
      (0, threeClicksOnsets.take 3) := by
  decide!

theorem threeClicks_stretch6 :
    onsetLoopFromOn threeClicksEnergyAt 1024 10 384 64 (0, threeClicksOnsets.take 3) =
      (0, threeClicksOnsets.take 3) := by
  decide!

theorem threeClicks_stretch7 :
    onsetLoopFromOn threeClicksEnergyAt 1024 10 448 64 (0, threeClicksOnsets.take 3) =
      (0, threeClicksOnsets.take 3) := by
  decide!

theorem threeClicks_stretch8 :
    onsetLoopFromOn threeClicksEnergyAt 1024 10 512 64 (0, threeClicksOnsets.take 3) =
      (0, threeClicksOnsets.take 3) := by
  decide!

theorem threeClicks_stretch9 :
    onsetLoopFromOn threeClicksEnergyAt 1024 10 576 64 (0, threeClicksOnsets.take 3) =
      (0, threeClicksOnsets.take 3) := by
  decide!

theorem threeClicks_stretch10 :
    onsetLoopFromOn threeClicksEnergyAt 1024 10 640 64 (0, threeClicksOnsets.take 3) =
      (0, threeClicksOnsets.take 3) := by
  decide!

theorem threeClicks_stretch11 :
    onsetLoopFromOn threeClicksEnergyAt 1024 10 704 64 (0, threeClicksOnsets.take 3) =
      (0, threeClicksOnsets.take 3) := by
  decide!

theorem threeClicks_stretch12 :
    onsetLoopFromOn threeClicksEnergyAt 1024 10 768 64 (0, threeClicksOnsets.take 3) =
      (0, threeClicksOnsets.take 3) := by
  decide!

theorem threeClicks_stretch13 :
    onsetLoopFromOn threeClicksEnergyAt 1024 10 832 64 (0, threeClicksOnsets.take 3) =
      (0, threeClicksOnsets.take 3) := by
  decide!

theorem threeClicks_stretch14 :
    onsetLoopFromOn threeClicksEnergyAt 1024 10 896 64 (0, threeClicksOnsets.take 3) =
      (0, threeClicksOnsets.take 3) := by
  decide!

theorem threeClicks_stretch15 :
    onsetLoopFromOn threeClicksEnergyAt 1024 10 960 64 (0, threeClicksOnsets.take 3) =
      (0, threeClicksOnsets.take 3) := by
  decide!

theorem threeClicks_detectOnsets : detectOnsets threeClicksEnergies 10 = threeClicksOnsets := by
  have hlen : threeClicksEnergies.length = 1024 := by simp [threeClicksEnergies]
  unfold detectOnsets
  rw [hlen]
  have h0 : onsetLoopState threeClicksEnergies 10 0 = (1, threeClicksOnsets.take 0) := by
    decide!
  have h1 := onsetLoopState_stretch threeClicksEnergies 10 0 64 64 _ _ rfl h0
    ((onsetLoopFrom_map_range threeClicksEnergyAt 1024 10 0 64 _ (by decide)).trans
      threeClicks_stretch0)
  have h2 := onsetLoopState_stretch threeClicksEnergies 10 64 64 128 _ _ rfl h1
    ((onsetLoopFrom_map_range threeClicksEnergyAt 1024 10 64 64 _ (by decide)).trans
      threeClicks_stretch1)
  have h3 := onsetLoopState_stretch threeClicksEnergies 10 128 64 192 _ _ rfl h2
    ((onsetLoopFrom_map_range threeClicksEnergyAt 1024 10 128 64 _ (by decide)).trans
      threeClicks_stretch2)
  have h4 := onsetLoopState_stretch threeClicksEnergies 10 192 64 256 _ _ rfl h3
    ((onsetLoopFrom_map_range threeClicksEnergyAt 1024 10 192 64 _ (by decide)).trans
      threeClicks_stretch3)
  have h5 := onsetLoopState_stretch threeClicksEnergies 10 256 64 320 _ _ rfl h4
    ((onsetLoopFrom_map_range threeClicksEnergyAt 1024 10 256 64 _ (by decide)).trans
      threeClicks_stretch4)
  have h6 := onsetLoopState_stretch threeClicksEnergies 10 320 64 384 _ _ rfl h5
    ((onsetLoopFrom_map_range threeClicksEnergyAt 1024 10 320 64 _ (by decide)).trans
      threeClicks_stretch5)
  have h7 := onsetLoopState_stretch threeClicksEnergies 10 384 64 448 _ _ rfl h6
    ((onsetLoopFrom_map_range threeClicksEnergyAt 1024 10 384 64 _ (by decide)).trans
      threeClicks_stretch6)
  have h8 := onsetLoopState_stretch threeClicksEnergies 10 448 64 512 _ _ rfl h7
    ((onsetLoopFrom_map_range threeClicksEnergyAt 1024 10 448 64 _ (by decide)).trans
      threeClicks_stretch7)
  have h9 := onsetLoopState_stretch threeClicksEnergies 10 512 64 576 _ _ rfl h8
    ((onsetLoopFrom_map_range threeClicksEnergyAt 1024 10 512 64 _ (by decide)).trans
      threeClicks_stretch8)
  have h10 := onsetLoopState_stretch threeClicksEnergies 10 576 64 640 _ _ rfl h9
    ((onsetLoopFrom_map_range threeClicksEnergyAt 1024 10 576 64 _ (by decide)).trans
      threeClicks_stretch9)
  have h11 := onsetLoopState_stretch threeClicksEnergies 10 640 64 704 _ _ rfl h10
    ((onsetLoopFrom_map_range threeClicksEnergyAt 1024 10 640 64 _ (by decide)).trans
      threeClicks_stretch10)
  have h12 := onsetLoopState_stretch threeClicksEnergies 10 704 64 768 _ _ rfl h11
    ((onsetLoopFrom_map_range threeClicksEnergyAt 1024 10 704 64 _ (by decide)).trans
      threeClicks_stretch11)
  have h13 := onsetLoopState_stretch threeClicksEnergies 10 768 64 832 _ _ rfl h12
    ((onsetLoopFrom_map_range threeClicksEnergyAt 1024 10 768 64 _ (by decide)).trans
      threeClicks_stretch12)
  have h14 := onsetLoopState_stretch threeClicksEnergies 10 832 64 896 _ _ rfl h13
    ((onsetLoopFrom_map_range threeClicksEnergyAt 1024 10 832 64 _ (by decide)).trans
      threeClicks_stretch13)
  have h15 := onsetLoopState_stretch threeClicksEnergies 10 896 64 960 _ _ rfl h14
    ((onsetLoopFrom_map_range threeClicksEnergyAt 1024 10 896 64 _ (by decide)).trans
      threeClicks_stretch14)
  have h16 := onsetLoopState_stretch threeClicksEnergies 10 960 64 1024 _ _ rfl h15
    ((onsetLoopFrom_map_range threeClicksEnergyAt 1024 10 960 64 _ (by decide)).trans
      threeClicks_stretch15)
  rw [h16]
  rfl

theorem threeClicks_acceptedOnsets (fftMag : List ℚ → List ℚ) :
    acceptedOnsets (performFullWaveformAnalysis fftMag threeClicksEngine) =
      threeClicksOnsets := by
  rw [acceptedOnsets_analysis fftMag threeClicksEngine (by decide)
    (by simp [threeClicksEngine, engineWithBuffer]), threeClicks_energies]
  have hdur : analysisDuration threeClicksEngine = 10 := by
    decide!
  rw [hdur]
  exact threeClicks_detectOnsets

/-! ## C12 -/

theorem interOnsetIntervals_length (onsets : List ℚ) :
    (interOnsetIntervals onsets).length = onsets.length - 1 := by
  induction onsets with
  | nil => rfl
  | cons a rest ih =>
    cases rest with
    | nil => rfl
    | cons b rest2 =>
      unfold interOnsetIntervals
      rw [List.length_cons, ih]
      simp

/-- The sorted intervals are the one ascending arrangement of the intervals. -/
theorem insertionSort_eq_of_sorted (iois sorted : List ℚ) (hperm : sorted.Perm iois)
    (hsorted : sorted.Sorted (· ≤ ·)) : iois.insertionSort (· ≤ ·) = sorted :=
  List.eq_of_perm_of_sorted ((List.perm_insertionSort _ iois).trans hperm.symm)
    (List.sorted_insertionSort _ iois) hsorted

theorem sorted_getD_le (sorted : List ℚ) (hsorted : sorted.Sorted (· ≤ ·)) (i j : Nat)
    (hij : i ≤ j) (hj : j < sorted.length) : sorted.getD i 0 ≤ sorted.getD j 0 := by
  rw [List.getD_eq_getElem _ _ (lt_of_le_of_lt hij hj), List.getD_eq_getElem _ _ hj]
  exact hsorted.rel_get_of_le (a := ⟨i, lt_of_le_of_lt hij hj⟩) (b := ⟨j, hj⟩) hij

/-- C12, counterexample: the three-click recording has the onsets
`0, 125/128, 625/256` s and the two intervals `125/128 < 375/256`.  The median the
code takes is `iois[1] = 375/256`, the larger one, and the BPM is
`2 * 60 / (375/256) = 2048/25`; the lower-middle interval `125/128` would give
`2 * 60 / (125/128) = 3072/25`. -/
theorem median_not_lower_middle :
    (analyze flatSpectrum threeClicksEngine).detectedBeatTimestamps =
        [0, 125 / 128, 625 / 256] ∧
      (interOnsetIntervals
        (analyze flatSpectrum threeClicksEngine).detectedBeatTimestamps).insertionSort
          (· ≤ ·) = [125 / 128, 375 / 256] ∧
      medianIOI (interOnsetIntervals
        (analyze flatSpectrum threeClicksEngine).detectedBeatTimestamps) = 375 / 256 ∧
      (analyze flatSpectrum threeClicksEngine).detectedBPM = 2048 / 25 ∧
      foldOctave (60 / (125 / 128)) = 3072 / 25 := by
  have hbeats : (analyze flatSpectrum threeClicksEngine).detectedBeatTimestamps =
      threeClicksOnsets := by
    unfold analyze
    rw [beats_eq_acceptedOnsets, threeClicks_acceptedOnsets]
  have hbpm : (analyze flatSpectrum threeClicksEngine).detectedBPM =
      bpmFromOnsets threeClicksOnsets := by
    unfold analyze
    rw [bpm_eq, threeClicks_acceptedOnsets]
    rfl
  rw [hbeats, hbpm]
  decide!

/-- C12, amended: when the accepted onsets have an even number `2 m ≥ 2` of
inter-onset intervals, the median IOI from which the BPM is derived is the element
of index `m = count / 2` of the ascending-sorted IOIs, that is the upper-middle
element, the larger of the two central values. -/
theorem median_is_upper_middle (e : Engine) (m : Nat) (sorted : List ℚ) (hm : 1 ≤ m)
    (hlen : (interOnsetIntervals (acceptedOnsets e)).length = 2 * m)
    (hperm : sorted.Perm (interOnsetIntervals (acceptedOnsets e)))
    (hsorted : sorted.Sorted (· ≤ ·)) :
    medianIOI (interOnsetIntervals (acceptedOnsets e)) = sorted.getD m 0 ∧
      sorted.getD (m - 1) 0 ≤ sorted.getD m 0 ∧
      sorted.getD m 0 = max (sorted.getD (m - 1) 0) (sorted.getD m 0) ∧
      (performBeatDetection e).detectedBPM =
        if sorted.getD m 0 > 1 / 100 then foldOctave (60 / sorted.getD m 0) else 0 := by
  have hmed : medianIOI (interOnsetIntervals (acceptedOnsets e)) = sorted.getD m 0 := by
    unfold medianIOI
    rw [insertionSort_eq_of_sorted _ _ hperm hsorted, hlen]
    congr 1
    omega
  have hslen : sorted.length = 2 * m := by rw [hperm.length_eq, hlen]
  have hle : sorted.getD (m - 1) 0 ≤ sorted.getD m 0 :=
    sorted_getD_le sorted hsorted (m - 1) m (by omega) (by omega)
  refine ⟨hmed, hle, (max_eq_right hle).symm, ?_⟩
  have hlen2 := interOnsetIntervals_length (acceptedOnsets e)
  rw [bpm_eq, if_neg (by omega)]
  unfold bpmFromOnsets
  dsimp only
  rw [if_neg (by
    intro hnil
    rw [hnil] at hlen
    simp at hlen
    omega), hmed]

/-- The three-click recording: two intervals, sorted `125/128, 375/256`, and the
BPM is derived from the upper one. -/
theorem median_is_upper_middle_witness :
    medianIOI (interOnsetIntervals
        (acceptedOnsets (performFullWaveformAnalysis flatSpectrum threeClicksEngine))) =
        [(125 : ℚ) / 128, 375 / 256].getD 1 0 ∧
      [(125 : ℚ) / 128, 375 / 256].getD (1 - 1) 0 ≤ [(125 : ℚ) / 128, 375 / 256].getD 1 0 ∧
      [(125 : ℚ) / 128, 375 / 256].getD 1 0 =
        max ([(125 : ℚ) / 128, 375 / 256].getD (1 - 1) 0)
          ([(125 : ℚ) / 128, 375 / 256].getD 1 0) ∧
      (performBeatDetection
        (performFullWaveformAnalysis flatSpectrum threeClicksEngine)).detectedBPM =
        if [(125 : ℚ) / 128, 375 / 256].getD 1 0 > 1 / 100 then
          foldOctave (60 / [(125 : ℚ) / 128, 375 / 256].getD 1 0)
        else 0 :=
  have hiois : interOnsetIntervals
      (acceptedOnsets (performFullWaveformAnalysis flatSpectrum threeClicksEngine)) =
      [125 / 128, 375 / 256] := by
    rw [threeClicks_acceptedOnsets]
    decide!
  median_is_upper_middle (performFullWaveformAnalysis flatSpectrum threeClicksEngine) 1
    [125 / 128, 375 / 256] (le_refl 1) (by rw [hiois]; rfl) (by rw [hiois])
    (by
      unfold List.Sorted
      simp only [List.pairwise_cons, List.mem_singleton, forall_eq, List.not_mem_nil,
        false_implies, implies_true, List.Pairwise.nil, and_true]
      norm_num)

/-! ## C13 -/

/-- Every inter-onset interval of a debounced onset list exceeds `0.2` s. -/
theorem interOnsetIntervals_gt (onsets : List ℚ)
    (h : List.Chain' (fun a b : ℚ => b - a > 1 / 5) onsets) :
    ∀ x ∈ interOnsetIntervals onsets, 1 / 5 < x := by
  induction onsets with
  | nil =>
    intro x hx
    simp [interOnsetIntervals] at hx
  | cons a rest ih =>
    cases rest with
    | nil =>
      intro x hx
      simp [interOnsetIntervals] at hx
    | cons b rest2 =>
      intro x hx
      unfold interOnsetIntervals at hx
      rw [List.chain'_cons] at h
      rcases List.mem_cons.mp hx with hx1 | hx2
      · rw [hx1]
        exact h.1
      · exact ih h.2 x hx2

/-- The median is one of the intervals. -/
theorem medianIOI_mem (iois : List ℚ) (hne : iois ≠ []) : medianIOI iois ∈ iois := by
  unfold medianIOI
  have hperm := List.perm_insertionSort (fun a b : ℚ => a ≤ b) iois
  have hpos : 0 < iois.length := List.length_pos.mpr hne
  have hidx : iois.length / 2 < (iois.insertionSort (fun a b : ℚ => a ≤ b)).length := by
    rw [hperm.length_eq]
    omega
  rw [List.getD_eq_getElem _ _ hidx]
  exact hperm.mem_iff.mp (List.getElem_mem _)

theorem foldOctave_pos (bpm : ℚ) (hpos : 0 < bpm) : 0 < foldOctave bpm := by
  rcases foldOctave_range bpm hpos with h | h
  · linarith [h.1]
  · rw [h.2]
    exact hpos

/-- C13: the BPM set by `performBeatDetection` is 0 exactly when fewer than two
onsets are accepted.  With at least two accepted onsets every IOI, hence the
median, exceeds `0.2` s, so the branch `medianIOI ≤ 0.01` is not taken: the BPM is
the folded raw estimate `60 / medianIOI`, the raw estimate is below 300, and the
result is strictly positive. -/
theorem bpm_zero_iff_few_onsets (e : Engine) :
    ((performBeatDetection e).detectedBPM = 0 ↔ (acceptedOnsets e).length < 2) ∧
      (2 ≤ (acceptedOnsets e).length →
        (∀ x ∈ interOnsetIntervals (acceptedOnsets e), 1 / 5 < x) ∧
          1 / 5 < medianIOI (interOnsetIntervals (acceptedOnsets e)) ∧
          ¬ medianIOI (interOnsetIntervals (acceptedOnsets e)) ≤ 1 / 100 ∧
          60 / medianIOI (interOnsetIntervals (acceptedOnsets e)) < 300 ∧
          (performBeatDetection e).detectedBPM =
            foldOctave (60 / medianIOI (interOnsetIntervals (acceptedOnsets e))) ∧
          0 < (performBeatDetection e).detectedBPM) := by
  have hmany : 2 ≤ (acceptedOnsets e).length →
      (∀ x ∈ interOnsetIntervals (acceptedOnsets e), 1 / 5 < x) ∧
        1 / 5 < medianIOI (interOnsetIntervals (acceptedOnsets e)) ∧
        ¬ medianIOI (interOnsetIntervals (acceptedOnsets e)) ≤ 1 / 100 ∧
        60 / medianIOI (interOnsetIntervals (acceptedOnsets e)) < 300 ∧
        (performBeatDetection e).detectedBPM =
          foldOctave (60 / medianIOI (interOnsetIntervals (acceptedOnsets e))) ∧
        0 < (performBeatDetection e).detectedBPM := by
    intro h2
    have hall := interOnsetIntervals_gt (acceptedOnsets e) (acceptedOnsets_chain e)
    have hlen := interOnsetIntervals_length (acceptedOnsets e)
    have hne : interOnsetIntervals (acceptedOnsets e) ≠ [] := by
      intro hnil
      rw [hnil] at hlen
      simp at hlen
      omega
    have hmed := hall _ (medianIOI_mem _ hne)
    have hmedpos : (0 : ℚ) < medianIOI (interOnsetIntervals (acceptedOnsets e)) := by linarith
    have hraw : 60 / medianIOI (interOnsetIntervals (acceptedOnsets e)) < 300 := by
      rw [div_lt_iff₀ hmedpos]
      linarith
    have hbpm : (performBeatDetection e).detectedBPM =
        foldOctave (60 / medianIOI (interOnsetIntervals (acceptedOnsets e))) := by
      rw [bpm_eq, if_neg (by omega)]
      unfold bpmFromOnsets
      dsimp only
      rw [if_neg hne, if_pos (by linarith)]
    refine ⟨hall, hmed, by linarith, hraw, hbpm, ?_⟩
    rw [hbpm]
    exact foldOctave_pos _ (div_pos (by norm_num) hmedpos)
  refine ⟨⟨fun hzero => ?_, fun hfew => ?_⟩, hmany⟩
  · by_contra hge
    have hpos := (hmany (by omega)).2.2.2.2.2
    rw [hzero] at hpos
    exact lt_irrefl 0 hpos
  · rw [bpm_eq, if_pos hfew]

/-- The spike train: 20 onsets are accepted, the median IOI `255/512` exceeds `0.2` s
and the BPM is positive. -/
theorem bpm_zero_iff_few_onsets_witness :
    1 / 5 < medianIOI (interOnsetIntervals
        (acceptedOnsets (performFullWaveformAnalysis flatSpectrum spikeTrainEngine))) ∧
      60 / medianIOI (interOnsetIntervals
        (acceptedOnsets (performFullWaveformAnalysis flatSpectrum spikeTrainEngine))) < 300 ∧
      0 < (performBeatDetection
        (performFullWaveformAnalysis flatSpectrum spikeTrainEngine)).detectedBPM :=
  have h := (bpm_zero_iff_few_onsets
    (performFullWaveformAnalysis flatSpectrum spikeTrainEngine)).2
      (by rw [spikeTrain_acceptedOnsets]; decide)
  ⟨h.2.1, h.2.2.2.1, h.2.2.2.2.2⟩

/-! ## Dyadic values -/

theorem IsDyadic.intCast (z : Int) : IsDyadic (z : ℚ) :=
  ⟨z, 0, by simp⟩

theorem IsDyadic.mul {x y : ℚ} (hx : IsDyadic x) (hy : IsDyadic y) : IsDyadic (x * y) := by
  obtain ⟨m, n, hm⟩ := hx
  obtain ⟨l, k, hl⟩ := hy
  refine ⟨m * l, n + k, ?_⟩
  have : x * y * 2 ^ (n + k) = (x * 2 ^ n) * (y * 2 ^ k) := by
    rw [pow_add]
    ring
  rw [this, hm, hl]
  push_cast
  rfl

theorem IsDyadic.sub {x y : ℚ} (hx : IsDyadic x) (hy : IsDyadic y) : IsDyadic (x - y) := by
  obtain ⟨m, n, hm⟩ := hx
  obtain ⟨l, k, hl⟩ := hy
  refine ⟨m * 2 ^ k - l * 2 ^ n, n + k, ?_⟩
  have : (x - y) * 2 ^ (n + k) = (x * 2 ^ n) * 2 ^ k - (y * 2 ^ k) * 2 ^ n := by
    rw [pow_add]
    ring
  rw [this, hm, hl]
  push_cast
  rfl

theorem roundToMultiple_dyadic (n : Int) (d : Nat) (e : Int) :
    IsDyadic (roundToMultiple n d e) := by
  unfold roundToMultiple
  split
  · exact IsDyadic.intCast _
  · refine ⟨roundRatio (n * ((2 ^ (-e).toNat : Nat) : Int)) d, (-e).toNat, ?_⟩
    rw [Rat.mkRat_eq_div]
    have hpos : ((2 ^ (-e).toNat : Nat) : ℚ) ≠ 0 := by positivity
    push_cast at hpos ⊢
    field_simp

theorem roundToBits_dyadic (bits : Nat) (q : ℚ) : IsDyadic (roundToBits bits q) := by
  unfold roundToBits
  split
  · exact ⟨0, 0, by simp⟩
  · exact roundToMultiple_dyadic _ _ _

theorem analysisDuration_dyadic (e : Engine) : IsDyadic (analysisDuration e) :=
  roundToBits_dyadic 24 _

theorem timeStamp_dyadic (duration : ℚ) (i : Nat) (h : IsDyadic duration) :
    IsDyadic (timeStamp duration i) := by
  unfold timeStamp DEFAULT_OVERVIEW_RESOLUTION
  refine IsDyadic.mul ⟨(i : Int), 10, ?_⟩ h
  push_cast
  norm_num

/-- Every accepted onset is the timestamp of a segment. -/
theorem onsetLoopState_timestamps (energies : List ℚ) (duration : ℚ) (i : Nat) :
    ∀ t ∈ (onsetLoopState energies duration i).2, ∃ j, t = timeStamp duration j := by
  induction i with
  | zero =>
    intro t ht
    simp [onsetLoopState_zero] at ht
  | succ n ih =>
    rw [onsetLoopState_succ]
    intro t ht
    unfold onsetStep acceptOnset at ht
    dsimp only at ht
    split at ht
    · split at ht
      · rcases List.mem_append.mp ht with h | h
        · exact ih t h
        · rw [List.mem_singleton] at h
          exact ⟨n, h⟩
      · exact ih t ht
    · exact ih t ht

theorem acceptedOnsets_dyadic (e : Engine) : ∀ t ∈ acceptedOnsets e, IsDyadic t := by
  intro t ht
  unfold acceptedOnsets at ht
  split at ht
  · simp at ht
  · split at ht
    · simp at ht
    · split at ht
      · simp at ht
      · obtain ⟨j, hj⟩ := onsetLoopState_timestamps _ _ _ t ht
        rw [hj]
        exact timeStamp_dyadic _ j (analysisDuration_dyadic e)

theorem interOnsetIntervals_dyadic (onsets : List ℚ) (h : ∀ t ∈ onsets, IsDyadic t) :
    ∀ x ∈ interOnsetIntervals onsets, IsDyadic x := by
  induction onsets with
  | nil =>
    intro x hx
    simp [interOnsetIntervals] at hx
  | cons a rest ih =>
    cases rest with
    | nil =>
      intro x hx
      simp [interOnsetIntervals] at hx
    | cons b rest2 =>
      intro x hx
      unfold interOnsetIntervals at hx
      rcases List.mem_cons.mp hx with hx1 | hx2
      · rw [hx1]
        exact (h b (by simp)).sub (h a (by simp))
      · exact ih (fun t ht => h t (List.mem_cons_of_mem _ ht)) x hx2

/-! ## Octave folding never lands on 180 -/

theorem doubleWhileSlow_form (fuel : Nat) (bpm : ℚ) :
    ∃ a : Nat, doubleWhileSlow fuel bpm = bpm * 2 ^ a := by
  induction fuel generalizing bpm with
  | zero => exact ⟨0, by simp [doubleWhileSlow]⟩
  | succ n ih =>
    unfold doubleWhileSlow
    split
    · obtain ⟨a, ha⟩ := ih (bpm * 2)
      exact ⟨a + 1, by rw [ha, pow_succ]; ring⟩
    · exact ⟨0, by simp⟩

theorem halveWhileFast_form (fuel : Nat) (bpm : ℚ) :
    ∃ k : Nat, halveWhileFast fuel bpm * 2 ^ k = bpm := by
  induction fuel generalizing bpm with
  | zero => exact ⟨0, by simp [halveWhileFast]⟩
  | succ n ih =>
    unfold halveWhileFast
    split
    · obtain ⟨k, hk⟩ := ih (bpm / 2)
      exact ⟨k + 1, by rw [pow_succ, ← mul_assoc, hk]; ring⟩
    · exact ⟨0, by simp⟩

theorem foldOctave_form (bpm : ℚ) :
    ∃ a k : Nat, foldOctave bpm * 2 ^ k = bpm * 2 ^ a := by
  unfold foldOctave
  obtain ⟨a, ha⟩ := doubleWhileSlow_form doubleFuel bpm
  obtain ⟨k, hk⟩ := halveWhileFast_form (halveFuel (doubleWhileSlow doubleFuel bpm))
    (doubleWhileSlow doubleFuel bpm)
  exact ⟨a, k, by rw [hk, ha]⟩

theorem two_pow_mod_three (n : Nat) : (2 : Int) ^ n % 3 = 1 ∨ (2 : Int) ^ n % 3 = 2 := by
  induction n with
  | zero => exact Or.inl rfl
  | succ n ih =>
    rw [pow_succ]
    omega

/-- The folded tempo of a dyadic interval is never exactly 180: that would make the
interval a power of two divided by 3. -/
theorem foldOctave_ne_180 (median : ℚ) (hpos : 0 < median) (hdy : IsDyadic median) :
    foldOctave (60 / median) ≠ 180 := by
  intro h180
  obtain ⟨a, k, hform⟩ := foldOctave_form (60 / median)
  obtain ⟨m, n, hm⟩ := hdy
  rw [h180] at hform
  have hne : median ≠ 0 := ne_of_gt hpos
  have h1 : (3 : ℚ) * 2 ^ k * median = 2 ^ a := by
    field_simp at hform
    linarith
  have h2 : (3 : ℚ) * 2 ^ k * (m : ℚ) = 2 ^ (a + n) := by
    rw [← hm, pow_add, ← h1]
    ring
  have h3 : (3 : Int) * (2 ^ k * m) = 2 ^ (a + n) := by
    have : ((3 * (2 ^ k * m) : Int) : ℚ) = ((2 ^ (a + n) : Int) : ℚ) := by
      push_cast
      rw [← h2]
      ring
    exact_mod_cast this
  have h4 := two_pow_mod_three (a + n)
  rw [← h3] at h4
  omega

/-! ## C4, amended -/

/-- C4, amended: the BPM stored by `performBeatDetection` is 0, or lies in the
half-open range `[70, 180)`, or is a positive value of at most `0.1` (a raw tempo
at or below the `0.1` floor of the doubling loop is stored unfolded). -/
theorem bpm_range (e : Engine) :
    (performBeatDetection e).detectedBPM = 0 ∨
      (70 ≤ (performBeatDetection e).detectedBPM ∧
        (performBeatDetection e).detectedBPM < 180) ∨
      (0 < (performBeatDetection e).detectedBPM ∧
        (performBeatDetection e).detectedBPM ≤ 1 / 10) := by
  rw [bpm_eq]
  split
  · exact Or.inl rfl
  · rcases bpmFromOnsets_range (acceptedOnsets e) with h | h | h
    · exact Or.inl h
    · refine Or.inr (Or.inl ⟨h.1, lt_of_le_of_ne h.2 ?_⟩)
      unfold bpmFromOnsets
      dsimp only
      split
      · norm_num
      · rename_i hne
        split
        · rename_i hmed
          exact foldOctave_ne_180 _ (by linarith)
            (interOnsetIntervals_dyadic _ (acceptedOnsets_dyadic e) _ (medianIOI_mem _ hne))
        · norm_num
    · exact Or.inr (Or.inr h)

/-! ## C2 on `float` samples -/

theorem loudStart_energies (fftMag : List ℚ → List ℚ) :
    energiesOf (performFullWaveformAnalysis fftMag loudStartEngine).overviewWaveformPoints =
      loudStartEnergies := by
  rw [energiesOf_overview fftMag loudStartEngine (by decide) (by simp [loudStartEngine,
    engineWithBuffer])]
  have hcount : segmentCount loudStartEngine.audioBuffer.numSamples = 1024 := by
    rw [segmentCount_eq_min]
    rfl
  rw [hcount]
  unfold loudStartEnergies loudStartEnergyAt
  apply List.map_congr_left
  intro i hi
  rw [List.mem_range] at hi
  have hstart : startSample loudStartEngine.audioBuffer.numSamples i = 430 * i := by
    rw [startSample_eq]
    show i * max 1 (441000 / 1024) = 430 * i
    norm_num
    omega
  have hend : endSample loudStartEngine.audioBuffer.numSamples i = 430 * i + 430 := by
    rw [endSample_eq_min]
    show min ((i + 1) * max 1 (441000 / 1024)) 441000 = 430 * i + 430
    norm_num
    omega
  rw [hstart, hend]
  show (envelope loudStart (430 * i) (430 * i + 430)).2 -
    (envelope loudStart (430 * i) (430 * i + 430)).1 = _
  apply energy_of_clicks loudStart _ _ (i < 10 ∨ i = 500) (by omega)
  · intro s _ _
    unfold loudStart
    split
    · exact Or.inr rfl
    · exact Or.inl rfl
  · refine ⟨430 * i + 1, by omega, by omega, ?_⟩
    unfold loudStart
    rw [if_neg (by omega)]
  · constructor
    · intro hc
      refine ⟨430 * i, le_refl _, by omega, ?_⟩
      unfold loudStart
      rw [if_pos (by omega)]
    · rintro ⟨s, a, b, c⟩
      unfold loudStart at c
      split at c
      · omega
      · norm_num at c

theorem loudStart_stretch0 :
    onsetLoopFromOn loudStartEnergyAt 1024 10 0 64 (10, loudStartOnsets.take 0) =
      (9, loudStartOnsets.take 1) := by
  decide!

theorem loudStart_stretch1 :
    onsetLoopFromOn loudStartEnergyAt 1024 10 64 64 (9, loudStartOnsets.take 1) =
      (9, loudStartOnsets.take 1) := by
  decide!

theorem loudStart_stretch2 :
    onsetLoopFromOn loudStartEnergyAt 1024 10 128 64 (9, loudStartOnsets.take 1) =
      (9, loudStartOnsets.take 1) := by
  decide!

theorem loudStart_stretch3 :
    onsetLoopFromOn loudStartEnergyAt 1024 10 192 64 (9, loudStartOnsets.take 1) =
      (9, loudStartOnsets.take 1) := by
  decide!

theorem loudStart_stretch4 :
    onsetLoopFromOn loudStartEnergyAt 1024 10 256 64 (9, loudStartOnsets.take 1) =
      (9, loudStartOnsets.take 1) := by
  decide!

theorem loudStart_stretch5 :
    onsetLoopFromOn loudStartEnergyAt 1024 10 320 64 (9, loudStartOnsets.take 1) =
      (9, loudStartOnsets.take 1) := by
  decide!

theorem loudStart_stretch6 :
    onsetLoopFromOn loudStartEnergyAt 1024 10 384 64 (9, loudStartOnsets.take 1) =
      (9, loudStartOnsets.take 1) := by
  decide!

theorem loudStart_stretch7 :
    onsetLoopFromOn loudStartEnergyAt 1024 10 448 64 (9, loudStartOnsets.take 1) =
      (9, loudStartOnsets.take 1) := by
  decide!

theorem loudStart_stretch8 :
    onsetLoopFromOn loudStartEnergyAt 1024 10 512 64 (9, loudStartOnsets.take 1) =
      (9, loudStartOnsets.take 1) := by
  decide!

theorem loudStart_stretch9 :
    onsetLoopFromOn loudStartEnergyAt 1024 10 576 64 (9, loudStartOnsets.take 1) =
      (9, loudStartOnsets.take 1) := by
  decide!

theorem loudStart_stretch10 :
    onsetLoopFromOn loudStartEnergyAt 1024 10 640 64 (9, loudStartOnsets.take 1) =
      (9, loudStartOnsets.take 1) := by
  decide!

theorem loudStart_stretch11 :
    onsetLoopFromOn loudStartEnergyAt 1024 10 704 64 (9, loudStartOnsets.take 1) =
      (9, loudStartOnsets.take 1) := by
  decide!

theorem loudStart_stretch12 :
    onsetLoopFromOn loudStartEnergyAt 1024 10 768 64 (9, loudStartOnsets.take 1) =
      (9, loudStartOnsets.take 1) := by
  decide!

theorem loudStart_stretch13 :
    onsetLoopFromOn loudStartEnergyAt 1024 10 832 64 (9, loudStartOnsets.take 1) =
      (9, loudStartOnsets.take 1) := by
  decide!

theorem loudStart_stretch14 :
    onsetLoopFromOn loudStartEnergyAt 1024 10 896 64 (9, loudStartOnsets.take 1) =
      (9, loudStartOnsets.take 1) := by
  decide!

theorem loudStart_stretch15 :
    onsetLoopFromOn loudStartEnergyAt 1024 10 960 64 (9, loudStartOnsets.take 1) =
      (9, loudStartOnsets.take 1) := by
  decide!

/-- The iterations 448 to 499: at the start of iteration 500 the running sum is 10. -/
theorem loudStart_stretch_to_500 :
    onsetLoopFromOn loudStartEnergyAt 1024 10 448 52 (9, loudStartOnsets.take 1) = (10, loudStartOnsets.take 1) := by
  decide!

theorem loudStart_detectOnsets : detectOnsets loudStartEnergies 10 = loudStartOnsets := by
  have hlen : loudStartEnergies.length = 1024 := by simp [loudStartEnergies]
  unfold detectOnsets
  rw [hlen]
  have h0 : onsetLoopState loudStartEnergies 10 0 = (10, loudStartOnsets.take 0) := by
    decide!
  have h1 := onsetLoopState_stretch loudStartEnergies 10 0 64 64 _ _ rfl h0
    ((onsetLoopFrom_map_range loudStartEnergyAt 1024 10 0 64 _ (by decide)).trans
      loudStart_stretch0)
  have h2 := onsetLoopState_stretch loudStartEnergies 10 64 64 128 _ _ rfl h1
    ((onsetLoopFrom_map_range loudStartEnergyAt 1024 10 64 64 _ (by decide)).trans
      loudStart_stretch1)
  have h3 := onsetLoopState_stretch loudStartEnergies 10 128 64 192 _ _ rfl h2
    ((onsetLoopFrom_map_range loudStartEnergyAt 1024 10 128 64 _ (by decide)).trans
      loudStart_stretch2)
  have h4 := onsetLoopState_stretch loudStartEnergies 10 192 64 256 _ _ rfl h3
    ((onsetLoopFrom_map_range loudStartEnergyAt 1024 10 192 64 _ (by decide)).trans
      loudStart_stretch3)
  have h5 := onsetLoopState_stretch loudStartEnergies 10 256 64 320 _ _ rfl h4
    ((onsetLoopFrom_map_range loudStartEnergyAt 1024 10 256 64 _ (by decide)).trans
      loudStart_stretch4)
  have h6 := onsetLoopState_stretch loudStartEnergies 10 320 64 384 _ _ rfl h5
    ((onsetLoopFrom_map_range loudStartEnergyAt 1024 10 320 64 _ (by decide)).trans
      loudStart_stretch5)
  have h7 := onsetLoopState_stretch loudStartEnergies 10 384 64 448 _ _ rfl h6
    ((onsetLoopFrom_map_range loudStartEnergyAt 1024 10 384 64 _ (by decide)).trans
      loudStart_stretch6)
  have h8 := onsetLoopState_stretch loudStartEnergies 10 448 64 512 _ _ rfl h7
    ((onsetLoopFrom_map_range loudStartEnergyAt 1024 10 448 64 _ (by decide)).trans
      loudStart_stretch7)
  have h9 := onsetLoopState_stretch loudStartEnergies 10 512 64 576 _ _ rfl h8
    ((onsetLoopFrom_map_range loudStartEnergyAt 1024 10 512 64 _ (by decide)).trans
      loudStart_stretch8)
  have h10 := onsetLoopState_stretch loudStartEnergies 10 576 64 640 _ _ rfl h9
    ((onsetLoopFrom_map_range loudStartEnergyAt 1024 10 576 64 _ (by decide)).trans
      loudStart_stretch9)
  have h11 := onsetLoopState_stretch loudStartEnergies 10 640 64 704 _ _ rfl h10
    ((onsetLoopFrom_map_range loudStartEnergyAt 1024 10 640 64 _ (by decide)).trans
      loudStart_stretch10)
  have h12 := onsetLoopState_stretch loudStartEnergies 10 704 64 768 _ _ rfl h11
    ((onsetLoopFrom_map_range loudStartEnergyAt 1024 10 704 64 _ (by decide)).trans
      loudStart_stretch11)
  have h13 := onsetLoopState_stretch loudStartEnergies 10 768 64 832 _ _ rfl h12
    ((onsetLoopFrom_map_range loudStartEnergyAt 1024 10 768 64 _ (by decide)).trans
      loudStart_stretch12)
  have h14 := onsetLoopState_stretch loudStartEnergies 10 832 64 896 _ _ rfl h13
    ((onsetLoopFrom_map_range loudStartEnergyAt 1024 10 832 64 _ (by decide)).trans
      loudStart_stretch13)
  have h15 := onsetLoopState_stretch loudStartEnergies 10 896 64 960 _ _ rfl h14
    ((onsetLoopFrom_map_range loudStartEnergyAt 1024 10 896 64 _ (by decide)).trans
      loudStart_stretch14)
  have h16 := onsetLoopState_stretch loudStartEnergies 10 960 64 1024 _ _ rfl h15
    ((onsetLoopFrom_map_range loudStartEnergyAt 1024 10 960 64 _ (by decide)).trans
      loudStart_stretch15)
  rw [h16]
  rfl

theorem loudStart_state_500 : onsetLoopState loudStartEnergies 10 500 = (10, [0]) := by
  have h0 : onsetLoopState loudStartEnergies 10 0 = (10, loudStartOnsets.take 0) := by
    decide!
  have h1 := onsetLoopState_stretch loudStartEnergies 10 0 64 64 _ _ rfl h0
    ((onsetLoopFrom_map_range loudStartEnergyAt 1024 10 0 64 _ (by decide)).trans
      loudStart_stretch0)
  have h2 := onsetLoopState_stretch loudStartEnergies 10 64 64 128 _ _ rfl h1
    ((onsetLoopFrom_map_range loudStartEnergyAt 1024 10 64 64 _ (by decide)).trans
      loudStart_stretch1)
  have h3 := onsetLoopState_stretch loudStartEnergies 10 128 64 192 _ _ rfl h2
    ((onsetLoopFrom_map_range loudStartEnergyAt 1024 10 128 64 _ (by decide)).trans
      loudStart_stretch2)
  have h4 := onsetLoopState_stretch loudStartEnergies 10 192 64 256 _ _ rfl h3
    ((onsetLoopFrom_map_range loudStartEnergyAt 1024 10 192 64 _ (by decide)).trans
      loudStart_stretch3)
  have h5 := onsetLoopState_stretch loudStartEnergies 10 256 64 320 _ _ rfl h4
    ((onsetLoopFrom_map_range loudStartEnergyAt 1024 10 256 64 _ (by decide)).trans
      loudStart_stretch4)
  have h6 := onsetLoopState_stretch loudStartEnergies 10 320 64 384 _ _ rfl h5
    ((onsetLoopFrom_map_range loudStartEnergyAt 1024 10 320 64 _ (by decide)).trans
      loudStart_stretch5)
  have h7 := onsetLoopState_stretch loudStartEnergies 10 384 64 448 _ _ rfl h6
    ((onsetLoopFrom_map_range loudStartEnergyAt 1024 10 384 64 _ (by decide)).trans
      loudStart_stretch6)
  exact onsetLoopState_stretch loudStartEnergies 10 448 52 500 _ _ rfl h7
    ((onsetLoopFrom_map_range loudStartEnergyAt 1024 10 448 52 _ (by decide)).trans
      loudStart_stretch_to_500)

theorem loudStart_acceptedOnsets (fftMag : List ℚ → List ℚ) :
    acceptedOnsets (performFullWaveformAnalysis fftMag loudStartEngine) =
      loudStartOnsets := by
  rw [acceptedOnsets_analysis fftMag loudStartEngine (by decide)
    (by simp [loudStartEngine, engineWithBuffer]), loudStart_energies]
  have hdur : analysisDuration loudStartEngine = 10 := by
    decide!
  rw [hdur]
  exact loudStart_detectOnsets

/-! ## C10 -/

/-- C10, failing input: ten seconds at 44100 Hz with a click in each of the segments
0 to 9 and one click in segment 500.  The energies of the segments 491 to 500 are
`0, ..., 0, 1` with mean `1/10`, but the running sum of iteration 500 is 10 (the
energies of the segments 1 to 9 were added twice and are never removed) and the local
average is 1.  The click of segment 500 (energy 1) is therefore not an onset: the
stored onset list is `[0]` and the BPM is 0, where the mean of the last ten energies
would accept it (`1 > 1.5 * 1/10`). -/
theorem local_average_double_counts :
    energiesOf (performFullWaveformAnalysis flatSpectrum
        loudStartEngine).overviewWaveformPoints = loudStartEnergies ∧
      loudStartEnergies.getD 500 0 = 1 ∧
      energySumAt loudStartEnergies 10 500 = 10 ∧
      localAverageAt loudStartEnergies 10 500 = 1 ∧
      meanOfRecent loudStartEnergies 500 = 1 / 10 ∧
      (analyze flatSpectrum loudStartEngine).detectedBeatTimestamps = [0] ∧
      (analyze flatSpectrum loudStartEngine).detectedBPM = 0 := by
  have hbeats : (analyze flatSpectrum loudStartEngine).detectedBeatTimestamps = [0] := by
    unfold analyze
    rw [beats_eq_acceptedOnsets, loudStart_acceptedOnsets]
    rfl
  have hbpm : (analyze flatSpectrum loudStartEngine).detectedBPM = 0 := by
    unfold analyze
    rw [bpm_eq, loudStart_acceptedOnsets]
    rfl
  have hsum : energySumAt loudStartEnergies 10 500 = 10 := by
    unfold energySumAt
    rw [loudStart_state_500]
  have havg : localAverageAt loudStartEnergies 10 500 = 1 := by
    unfold localAverageAt
    rw [hsum]
    decide!
  exact ⟨loudStart_energies flatSpectrum, by decide!, hsum, havg, by decide!, hbeats, hbpm⟩

/-! ## Rounding keeps positive values positive -/

/-- Rounding to `float` decides the byte: three magnitudes of 1024 added onto
`0.0001f` give exactly 3072 (the `0.0001` is absorbed), each band ratio is the
`float` nearest to `1/3`, the products are 85 and 255, and the byte is 255; in exact
arithmetic the value would be just below 255 and the byte 254. -/
theorem float_rounding_decides_byte :
    floatSum (toFloat (1 / 10000)) [1024, 1024, 1024] = 3072 ∧
      colorValue 1024 3072 = 255 ∧
      toColorByte (colorValue 1024 3072) = 255 ∧
      toColorByte ((1024 : ℚ) / (1 / 10000 + 3072) * 255 * 3) = 254 := by
  decide!

end AudioEngine
